import Mathlib

/-!
Verification development for the SIEM backend (parsers + detection engine).

The JavaScript sources are shallowly embedded:
* `src/backend/services/detectionEngine.js` — `getFieldValue`,
  `matchesCondition`, `processSignatureRule`, `processThresholdRule`,
  `processCorrelationRule`, `createAlert`.
* `src/backend/parsers/syslogParser.js` — `parsePriority`, `mapSeverity`,
  `classifyEvent`, `parse` (here `syslogParse`), with the two source regexes
  (`SYSLOG_BSD_REGEX`, `SYSLOG_ISO_REGEX`) implemented as deterministic
  matchers that follow the JS backtracking semantics of those exact patterns.
* the Windows event parser — `EVENT_MAPPINGS` (`eventMappings`),
  `LOGON_TYPES` (`logonTypes`), `parseWindowsEvent`, `extractUser`,
  `parseLogonEvent`, `parseProcessEvent`, `parseServiceEvent`, `parse`
  (here `windowsParse`).

Modelling conventions:
* JS values are the inductive `JSValue` (numbers restricted to integers; no
  claim involves fractional numbers).  `undefined` is a distinguished value.
* JS wall-clock instants (`Date.now()`) are explicit `now : Int` parameters
  in milliseconds; `new Date(v).getTime()` is `dateGetTime`, defined for the
  numeric timestamps used throughout (JS `Date` accepts epoch-millisecond
  numbers).
* The JS regex engine used by the `matches` condition is an explicit
  parameter `re : String → Option (String → Bool)`: `re p` is `none` when
  `new RegExp(p, 'i')` throws, otherwise `some t` where `t s` is
  `/p/i.test(s)`.
* The module-level mutable `thresholdState` map is threaded explicitly as a
  `StateMap` argument and result.
* Database/broadcast side effects of `createAlert` (insert, match-count
  increment, console logging) are external sinks and are not modelled; the
  returned `Alert` record is.
-/

/-! ## JS value model -/

mutual
inductive JSValue where
  | null
  | undefined
  | bool (b : Bool)
  | num (n : Int)
  | str (s : String)
  | arr (xs : JSList)
  | obj (fs : JSFields)
deriving DecidableEq
inductive JSList where
  | nil
  | cons (v : JSValue) (tl : JSList)
deriving DecidableEq
inductive JSFields where
  | nil
  | cons (k : String) (v : JSValue) (tl : JSFields)
deriving DecidableEq
end

def JSList.ofList : List JSValue → JSList
  | [] => .nil
  | v :: vs => .cons v (JSList.ofList vs)

def JSFields.ofList : List (String × JSValue) → JSFields
  | [] => .nil
  | (k, v) :: fs => .cons k v (JSFields.ofList fs)

def JSList.toList : JSList → List JSValue
  | .nil => []
  | .cons v tl => v :: JSList.toList tl

def JSList.length (xs : JSList) : Nat := xs.toList.length

def JSList.get? (xs : JSList) (i : Nat) : Option JSValue := xs.toList.get? i

/-- First binding wins, as for JS object literals with distinct keys. -/
def JSFields.lookup : JSFields → String → Option JSValue
  | .nil, _ => none
  | .cons k v tl, key => if k = key then some v else JSFields.lookup tl key

/-- JS truthiness (`Boolean(v)`); integers only, so no `NaN` case. -/
def jsTruthy : JSValue → Bool
  | .null => false
  | .undefined => false
  | .bool b => b
  | .num n => n != 0
  | .str s => s != ""
  | .arr _ => true
  | .obj _ => true

/-- JS `a || b`. -/
def jsOr (a b : JSValue) : JSValue := if jsTruthy a then a else b

/-- JS strict equality `===`.  Structural on primitives; for `arr`/`obj`
`===` is reference equality, and the comparisons reachable in this
development are always between a rule literal and event data (never the
same reference), so those cases are `false`. -/
def jsStrictEq : JSValue → JSValue → Bool
  | .null, .null => true
  | .undefined, .undefined => true
  | .bool a, .bool b => a == b
  | .num a, .num b => a == b
  | .str a, .str b => a == b
  | _, _ => false

/-- Element stringification inside JS array joining: `null`/`undefined`
become the empty string. -/
def jsArrElemStr : JSValue → String
  | .null => ""
  | .undefined => ""
  | .bool true => "true"
  | .bool false => "false"
  | .num n => toString n
  | .str s => s
  | .arr _ => ""
  | .obj _ => "[object Object]"

/-- JS `String(v)` / template-literal interpolation.  One level of array
joining is modelled (no value stringified in this development nests an
array inside an array). -/
def jsToString : JSValue → String
  | .null => "null"
  | .undefined => "undefined"
  | .bool true => "true"
  | .bool false => "false"
  | .num n => toString n
  | .str s => s
  | .arr xs => String.intercalate "," (xs.toList.map jsArrElemStr)
  | .obj _ => "[object Object]"

/-! ## String helpers (JS built-ins used by the sources)

These mirror `includes`, `toLowerCase`, `split`, `trim` and `parseInt`.
They are written over `List Char` so that proofs and witnesses can be
checked by kernel evaluation. -/

/-- Source: `sub` is a prefix of `s` (char lists). -/
def charsPfx : List Char → List Char → Bool
  | _, [] => true
  | [], _ :: _ => false
  | a :: as, b :: bs => a == b && charsPfx as bs

/-- Source: `sub` occurs inside `s` (char lists); JS `String.prototype.includes`. -/
def charsSub : List Char → List Char → Bool
  | [], sub => charsPfx [] sub
  | c :: tl, sub => charsPfx (c :: tl) sub || charsSub tl sub

/-- JS `s.includes(sub)`. -/
def strIncludes (s sub : String) : Bool := charsSub s.toList sub.toList

/-- JS `s.toLowerCase()` (ASCII range; all strings in scope are ASCII). -/
def strLower (s : String) : String := String.mk (s.toList.map Char.toLower)

/-- Split a char list at a separator char; JS `s.split(sep)` for the
single-char separators (`'.'`, `'\\'`) the sources use. -/
def charsSplit (sep : Char) : List Char → List (List Char)
  | [] => [[]]
  | c :: tl =>
      match charsSplit sep tl with
      | [] => if c == sep then [[], []] else [[c]]
      | h :: rest => if c == sep then [] :: h :: rest else (c :: h) :: rest

/-- JS `s.split(sep)` for a one-char separator. -/
def strSplit (s : String) (sep : Char) : List String :=
  (charsSplit sep s.toList).map String.mk

/-- The JS whitespace class `\s` (ASCII members; the inputs in scope contain
no Unicode whitespace). -/
def jsSpace (c : Char) : Bool :=
  c == ' ' || c == '\t' || c == '\n' || c == '\r' || c == '\x0b' || c == '\x0c'

/-- JS `s.trim()`. -/
def strTrim (s : String) : String :=
  String.mk (((s.toList.dropWhile fun c => jsSpace c).reverse.dropWhile
    fun c => jsSpace c).reverse)

/-- Value of a digit string (the regex captures fed to `parseInt` consist of
decimal digits only). -/
def digitsToNat (cs : List Char) : Nat :=
  cs.foldl (fun acc c => 10 * acc + (c.toNat - 48)) 0

/-- Decimal value of a string if it is a nonempty all-digit string. -/
def strToNat (s : String) : Option Nat :=
  if s.toList ≠ [] && s.toList.all (fun c => c.isDigit) then
    some (digitsToNat s.toList)
  else none

/-- Property access `v[key]` on a non-null receiver.  Objects look the key
up; arrays accept canonical numeric index strings; anything else yields
`undefined` (the string-character and built-in-property corners of JS are
not reachable from the rule paths in this development). -/
def jsIndex (v : JSValue) (key : String) : JSValue :=
  match v with
  | .obj fs => (fs.lookup key).getD .undefined
  | .arr xs =>
      match strToNat key with
      | some i => if toString i = key then (xs.get? i).getD .undefined else .undefined
      | none => .undefined
  | _ => .undefined

/-! ## getFieldValue (detectionEngine.js lines 186-198) -/

/-- Walk the split dotted path: at each step the source returns `undefined`
for a `null`/`undefined` receiver, else indexes into it. -/
def walkPath : List String → JSValue → JSValue
  | [], v => v
  | p :: ps, v =>
      match v with
      | .null => .undefined
      | .undefined => .undefined
      | _ => walkPath ps (jsIndex v p)

/-- Source: `getFieldValue(obj, fieldPath)`: `undefined` when the path is falsy
(absent or empty) or the object is falsy, else the dotted-path walk. -/
def getFieldValue (obj : JSValue) (fieldPath : Option String) : JSValue :=
  match fieldPath with
  | none => .undefined
  | some fp =>
      if fp = "" then .undefined
      else if jsTruthy obj then walkPath (strSplit fp '.') obj
      else .undefined

/-! ## Condition tree and matchesCondition (detectionEngine.js lines 200-257)

A condition node is a JSON object; the matcher tests which keys are present.
The embedding represents presence with option-like constructors.  JSON has
no `undefined`, so a present `equals`/`contains`/`matches` key always holds
a non-`undefined` value in real rule sets; `Option JSValue` reflects that. -/

mutual
inductive Condition where
  | mk (anyC : CondListOpt) (allC : CondListOpt) (field : Option String)
       (eqC : Option JSValue) (containsC : Option JSValue)
       (containsAnyC : Option (List JSValue)) (matchesC : Option String)
       (notC : CondOpt) (addC : CondOpt)
inductive CondOpt where
  | none
  | some (c : Condition)
inductive CondList where
  | nil
  | cons (c : Condition) (tl : CondList)
inductive CondListOpt where
  | none
  | some (cs : CondList)
end

def CondList.ofList : List Condition → CondList
  | [] => .nil
  | c :: cs => .cons c (CondList.ofList cs)

/-- The `equals` check's failure condition:
`condition.equals !== undefined && fieldValue !== condition.equals`. -/
def eqFails (fieldValue : JSValue) : Option JSValue → Bool
  | some v => !jsStrictEq fieldValue v
  | none => false

/-- The `contains` check's failure condition:
`!fieldValue || !String(fieldValue).toLowerCase().includes(String(condition.contains).toLowerCase())`. -/
def containsFails (fieldValue : JSValue) : Option JSValue → Bool
  | some v =>
      !jsTruthy fieldValue ||
        !strIncludes (strLower (jsToString fieldValue)) (strLower (jsToString v))
  | none => false

/-- The `contains_any` check's failure condition (`!fieldValue`, or no
entry of the list occurs in the lowercased field value). -/
def containsAnyFails (fieldValue : JSValue) : Option (List JSValue) → Bool
  | some vs =>
      if !jsTruthy fieldValue then true
      else
        !(vs.any fun c =>
          strIncludes (strLower (jsToString fieldValue)) (strLower (jsToString c)))
  | none => false

/-- The `matches` check's failure condition: `new RegExp` throwing (the
`catch` returns false), or `!fieldValue || !regex.test(String(fieldValue))`. -/
def matchesFails (re : String → Option (String → Bool)) (fieldValue : JSValue) :
    Option String → Bool
  | some pat =>
      match re pat with
      | none => true
      | some tester => !jsTruthy fieldValue || !tester (jsToString fieldValue)
  | none => false

mutual
/-- Source: `matchesCondition(event, condition)`.  `re` is the JS regex engine for
the case-insensitive `matches` check (see the header).  The `any` and `all`
branches return immediately, exactly as the source's early `return`s do;
the remaining checks fall through in source order, each returning `false`
when its failure condition holds, with `true` at the end. -/
def matchesCondition (re : String → Option (String → Bool)) (event : JSValue) :
    Condition → Bool
  | .mk anyC allC field eqC containsC containsAnyC matchesC notC addC =>
    match anyC with
    | .some cs => anyMatches re event cs
    | .none =>
    match allC with
    | .some cs => allMatches re event cs
    | .none =>
      let fieldValue := getFieldValue event field
      if eqFails fieldValue eqC then false
      else if containsFails fieldValue containsC then false
      else if containsAnyFails fieldValue containsAnyC then false
      else if matchesFails re fieldValue matchesC then false
      else if notMatches re event notC then false
      else if addFails re event addC then false
      else true
/-- Source: `condition.any.some(c => matchesCondition(event, c))`. -/
def anyMatches (re : String → Option (String → Bool)) (event : JSValue) :
    CondList → Bool
  | .nil => false
  | .cons c tl => matchesCondition re event c || anyMatches re event tl
/-- Source: `condition.all.every(c => matchesCondition(event, c))`. -/
def allMatches (re : String → Option (String → Bool)) (event : JSValue) :
    CondList → Bool
  | .nil => true
  | .cons c tl => matchesCondition re event c && allMatches re event tl
/-- The `not` check's failure condition:
`condition.not && matchesCondition(event, condition.not)`. -/
def notMatches (re : String → Option (String → Bool)) (event : JSValue) :
    CondOpt → Bool
  | .some c => matchesCondition re event c
  | .none => false
/-- The `additional` check's failure condition:
`condition.additional && !matchesCondition(event, condition.additional)`. -/
def addFails (re : String → Option (String → Bool)) (event : JSValue) :
    CondOpt → Bool
  | .some c => !matchesCondition re event c
  | .none => false
end

example :
    matchesCondition (fun _ => none) (JSValue.obj (.ofList [("a", .num 1)]))
      (Condition.mk .none .none (some "a") (some (.num 1)) none none
        none .none .none) = true := rfl

example :
    matchesCondition (fun _ => none) (JSValue.obj (.ofList [("a", .num 2)]))
      (Condition.mk .none .none (some "a") (some (.num 1)) none none
        none .none .none) = false := rfl

/-! ## Detection engine (detectionEngine.js lines 259-411)

The module-level `thresholdState` map (keyed `rule_id:group_key`, shared by
the threshold and correlation handlers) is threaded as an explicit
association list with JS-`Map` get/set/delete semantics. -/

structure StoredEvent where
  id : JSValue
  timestamp : JSValue
deriving DecidableEq

structure ThState where
  count : Int
  window_start : Int
  events : List StoredEvent
deriving DecidableEq

def StateMap := List (String × ThState)

def mapGet : StateMap → String → Option ThState
  | [], _ => none
  | (k, st) :: tl, key => if k = key then some st else mapGet tl key

/-- JS `Map.set`: replace in place, or append a new binding. -/
def mapSet : StateMap → String → ThState → StateMap
  | [], key, v => [(key, v)]
  | (k, st) :: tl, key, v =>
      if k = key then (k, v) :: tl else (k, st) :: mapSet tl key v

/-- JS `Map.delete` (keys are unique since `mapSet` replaces). -/
def mapDelete : StateMap → String → StateMap
  | [], _ => []
  | (k, st) :: tl, key => if k = key then tl else (k, st) :: mapDelete tl key

/-- Source: `new Date(v).getTime()` for the epoch-millisecond numeric timestamps the
events in this development carry (JS `Date` accepts such numbers). -/
def dateGetTime : JSValue → Int
  | .num n => n
  | _ => 0

/-- The rule fields `createAlert` reads (`rule.id`, `rule.name`,
`rule.description`, `rule.severity`). -/
structure RuleMeta where
  id : String
  name : String
  description : String
  severity : String
deriving DecidableEq

/-- The Alert record built by `createAlert` (lines 358-379).  The random
`uuidv4()` alert id and the database/broadcast side effects are external
and not modelled. -/
structure Alert where
  event_id : JSValue
  rule_id : String
  severity : String
  status : String
  title : String
  description : String
  endpoint_id : JSValue
deriving DecidableEq

def createAlert (event : JSValue) (rule : RuleMeta) (details : String) : Alert :=
  { event_id := jsIndex event "id"
    rule_id := rule.id
    severity := rule.severity
    status := "open"
    title := rule.name
    description := rule.description ++ "\n\nDetails: " ++ details
    endpoint_id := jsIndex event "endpoint_id" }

/-- Source: `group_by ? getFieldValue(event, group_by) : 'global'` — the group key
expression shared by the threshold and correlation handlers.  `group_by`
holds the string from `rule.conditions.group_by` when present; the empty
string is falsy in JS. -/
def groupValueOf (event : JSValue) (group_by : Option String) : JSValue :=
  match group_by with
  | some gb => if gb = "" then .str "global" else getFieldValue event (some gb)
  | none => .str "global"

/-- JS `v || d` for an optional numeric rule parameter (absent and `0` are
falsy). -/
def jsOrInt (v : Option Int) (d : Int) : Int :=
  match v with
  | some n => if n = 0 then d else n
  | none => d

/-- Source: `${window_seconds}` interpolation in the threshold alert detail (the raw
conditions value; `undefined` when the rule has no `window_seconds`). -/
def optIntStr : Option Int → String
  | some n => toString n
  | none => "undefined"

/-- The detail template of the threshold alert:
`Threshold exceeded: N events in Ws (group: G)`. -/
def thresholdDetail (count : Int) (window_seconds : Option Int) (groupValue : JSValue) : String :=
  "Threshold exceeded: " ++ toString count ++ " events in " ++
    optIntStr window_seconds ++ "s (group: " ++ jsToString groupValue ++ ")"

/-- A threshold rule: `rule.conditions` carries the predicate keys (read
only by `matchesCondition`) together with `threshold`, `window_seconds` and
`group_by` (read only by the destructuring in `processThresholdRule`). -/
structure ThresholdRule where
  meta : RuleMeta
  cond : Condition
  threshold : Option Int
  window_seconds : Option Int
  group_by : Option String

/-- Source: `processThresholdRule(event, rule)` (lines 269-315), with the wall
clock `Date.now()` and the state map explicit. -/
def processThresholdRule (re : String → Option (String → Bool))
    (rule : ThresholdRule) (event : JSValue) (now : Int) (stateMap : StateMap) :
    Option Alert × StateMap :=
  if !matchesCondition re event rule.cond then (none, stateMap)
  else
    let groupValue := groupValueOf event rule.group_by
    let stateKey := rule.meta.id ++ ":" ++ jsToString groupValue
    let windowMs : Int := jsOrInt rule.window_seconds 60 * 1000
    -- get or create state; reset when the stored window is stale
    let state0 : ThState :=
      match mapGet stateMap stateKey with
      | some st => if now - st.window_start > windowMs then ⟨0, now, []⟩ else st
      | none => ⟨0, now, []⟩
    -- state.count++; state.events.push({id, timestamp})
    let state1 : ThState :=
      ⟨state0.count + 1, state0.window_start,
        state0.events ++ [⟨jsIndex event "id", jsIndex event "timestamp"⟩]⟩
    -- prune events older than the window relative to now; count = survivors
    let pruned := state1.events.filter fun e => now - dateGetTime e.timestamp < windowMs
    let state2 : ThState := ⟨(pruned.length : Int), state1.window_start, pruned⟩
    let m2 := mapSet stateMap stateKey state2
    if state2.count ≥ jsOrInt rule.threshold 5 then
      -- reset after alert to avoid alert spam
      (some (createAlert event rule.meta
          (thresholdDetail state2.count rule.window_seconds groupValue)),
        mapSet m2 stateKey ⟨0, now, []⟩)
    else (none, m2)

/-- One entry of `conditions.sequence`; the source key `match` is spelled
`matchCond` (`match` is reserved in Lean). -/
structure SeqStage where
  count : Option Int
  window_seconds : Option Int
  matchCond : Option Condition

structure CorrelationRule where
  meta : RuleMeta
  sequence : List SeqStage
  group_by : Option String

/-- Source: `processCorrelationRule(event, rule)` (lines 318-355).  When the
stage-1 (success) branch fires it deletes the group state and returns
immediately; otherwise control falls through to the stage-0 (failure)
accumulation. -/
def processCorrelationRule (re : String → Option (String → Bool))
    (rule : CorrelationRule) (event : JSValue) (now : Int) (stateMap : StateMap) :
    Option Alert × StateMap :=
  match rule.sequence with
  | s0 :: s1 :: _ =>
    let groupValue := groupValueOf event rule.group_by
    let stateKey := rule.meta.id ++ ":" ++ jsToString groupValue
    -- check if current event matches success pattern (second in sequence)
    let stage1Alert : Option Alert :=
      match s1.matchCond with
      | none => none
      | some successPattern =>
        if matchesCondition re event successPattern then
          match mapGet stateMap stateKey with
          | none => none
          | some state =>
            let windowMs : Int := jsOrInt s0.window_seconds 300 * 1000
            if state.count ≥ jsOrInt s0.count 3 then
              let recentFailures := state.events.filter fun e =>
                now - dateGetTime e.timestamp < windowMs
              if (recentFailures.length : Int) ≥ jsOrInt s0.count 3 then
                some (createAlert event rule.meta
                  ("Correlation match: Success after " ++
                    toString recentFailures.length ++ " failures"))
              else none
            else none
        else none
    match stage1Alert with
    | some a => (some a, mapDelete stateMap stateKey)
    | none =>
      -- check if current event matches failure pattern (first in sequence)
      match s0.matchCond with
      | some failurePattern =>
        if matchesCondition re event failurePattern then
          let state := (mapGet stateMap stateKey).getD ⟨0, now, []⟩
          (none, mapSet stateMap stateKey
            ⟨state.count + 1, state.window_start,
              state.events ++ [⟨jsIndex event "id", jsIndex event "timestamp"⟩]⟩)
        else (none, stateMap)
      | none => (none, stateMap)
  | _ => (none, stateMap)

/-- Source: `processSignatureRule(event, rule)` (lines 260-266). -/
def processSignatureRule (re : String → Option (String → Bool))
    (meta : RuleMeta) (cond : Condition) (event : JSValue) : Option Alert :=
  if matchesCondition re event cond then
    some (createAlert event meta ("Signature match: " ++ meta.name))
  else none

/-- Feed a stream of `(event, Date.now())` pairs through
`processThresholdRule`, collecting each call's alert. -/
def runThreshold (re : String → Option (String → Bool)) (rule : ThresholdRule) :
    StateMap → List (JSValue × Int) → List (Option Alert) × StateMap
  | m, [] => ([], m)
  | m, (e, t) :: rest =>
      let step := processThresholdRule re rule e t m
      let tail := runThreshold re rule step.2 rest
      (step.1 :: tail.1, tail.2)

/-- Feed a stream of `(event, Date.now())` pairs through
`processCorrelationRule`, collecting each call's alert. -/
def runCorrelation (re : String → Option (String → Bool)) (rule : CorrelationRule) :
    StateMap → List (JSValue × Int) → List (Option Alert) × StateMap
  | m, [] => ([], m)
  | m, (e, t) :: rest =>
      let step := processCorrelationRule re rule e t m
      let tail := runCorrelation re rule step.2 rest
      (step.1 :: tail.1, tail.2)

/-! ## Syslog parser (syslogParser.js)

`SYSLOG_BSD_REGEX` and `SYSLOG_ISO_REGEX` are implemented as deterministic
matchers that follow the JS backtracking semantics of those exact patterns;
the only genuine alternations in them are the optional `<priority>` prefix,
the 1-or-2-digit day, the lazy program name with its optional `[pid]`, and
the trailing `\s*(.*)$` (JS `.` matches no line terminator and `$` without
the `m` flag only matches at the very end).

`Date` arithmetic (`parseTimestamp`'s current-year construction and
roll-back, `new Date().toISOString()`) depends on the wall clock and is
defunctionalized into `TimeSpec`; no claim inspects a parsed timestamp. -/

inductive TimeSpec where
  | bsd (timestampStr : String)
  | isoNow
  | isoOf (s : String)
  | winGiven (v : JSValue)
deriving DecidableEq

inductive RawLog where
  | raw (s : String)
  | stringified (v : JSValue)
deriving DecidableEq

/-- The normalized event record the parsers build.  `user` is set only by
the Windows parser; an absent JS key reads as `undefined`. -/
structure Event where
  timestamp : TimeSpec
  source : String
  event_type : String
  severity : String
  hostname : JSValue
  user : JSValue := .undefined
  description : String
  raw_log : RawLog
  parsed_data : JSFields
deriving DecidableEq

/-- JS `\w`. -/
def wordChar (c : Char) : Bool := c.isAlphanum || c == '_'

/-- JS line terminators (excluded by `.` and blocking `$`). -/
def jsNewline (c : Char) : Bool :=
  c == '\n' || c == '\r' || c == ' ' || c == ' '

/-- Source: `\s+`: nonempty whitespace run (greedy; the following token in both
regexes is `\S`, so maximality is forced). -/
def takeSpaces1 (cs : List Char) : Option (List Char × List Char) :=
  match cs.span jsSpace with
  | ([], _) => none
  | (sp, rest) => some (sp, rest)

/-- Source: `(?:<(\d+)>)?`: the optional priority prefix. -/
def tryPriority (cs : List Char) : Option (String × List Char) :=
  match cs with
  | '<' :: tl =>
      match tl.span Char.isDigit with
      | ([], _) => none
      | (ds, rest) =>
          match rest with
          | '>' :: r2 => some (String.mk ds, r2)
          | _ => none
  | _ => none

/-- Source: `\d{2}:\d{2}:\d{2}`. -/
def takeClock (cs : List Char) : Option (List Char × List Char) :=
  match cs with
  | a :: b :: ':' :: c :: d :: ':' :: e :: f :: rest =>
      if a.isDigit && b.isDigit && c.isDigit && d.isDigit && e.isDigit && f.isDigit then
        some ([a, b, ':', c, d, ':', e, f], rest)
      else none
  | _ => none

/-- The capture `(\w{3}\s+\d{1,2}\s+\d{2}:\d{2}:\d{2})`.  The day's digits
are followed by mandatory whitespace, so a 3-digit run can match under
neither the 2- nor the 1-digit alternative. -/
def bsdTimestamp (cs : List Char) : Option (List Char × List Char) := do
  match cs with
  | m1 :: m2 :: m3 :: r0 =>
      if wordChar m1 && wordChar m2 && wordChar m3 then do
        let (sp1, r1) ← takeSpaces1 r0
        match r1.span Char.isDigit with
        | ([], _) => none
        | (ds, r2) =>
            if ds.length = 1 || ds.length = 2 then do
              let (sp2, r3) ← takeSpaces1 r2
              let (clock, r4) ← takeClock r3
              some ([m1, m2, m3] ++ sp1 ++ ds ++ sp2 ++ clock, r4)
            else none
      else none
  | _ => none

/-- Source: `(?:\[(\d+)\])?:` — the bracketed pid followed by the colon. -/
def tryPid (cs : List Char) : Option (List Char × List Char) :=
  match cs with
  | '[' :: tl =>
      match tl.span Char.isDigit with
      | ([], _) => none
      | (ds, rest) =>
          match rest with
          | ']' :: ':' :: r2 => some (ds, r2)
          | _ => none
  | _ => none

/-- Source: `(\S+?)(?:\[(\d+)\])?:` — lazy program name: the shortest nonempty
non-space prefix after which either `[pid]:` (preferred, the optional
group is greedy) or `:` matches. -/
def findProg (acc : List Char) : List Char → Option (List Char × Option (List Char) × List Char)
  | [] => none
  | c :: tl =>
      if jsSpace c then none
      else
        match tryPid tl with
        | some (ds, r) => some (acc ++ [c], some ds, r)
        | none =>
            match tl with
            | ':' :: r => some (acc ++ [c], none, r)
            | _ => findProg (acc ++ [c]) tl

/-- Source: `\s*(.*)$`: greedy whitespace, then the message, which may not contain
a line terminator (`.` excludes them and `$` only matches at the end). -/
def takeMessage (cs : List Char) : Option (List Char) :=
  let r := cs.dropWhile jsSpace
  if r.any jsNewline then none else some r

/-- Source: `\s+(\S+)\s+(\S+?)(?:\[(\d+)\])?:\s*(.*)$` — the tail both syslog
regexes share after the timestamp capture: hostname, program, optional
pid, message. -/
def tailMatch (cs : List Char) : Option (String × String × Option String × String) := do
  let (_, r1) ← takeSpaces1 cs
  match r1.span (fun c => !jsSpace c) with
  | ([], _) => none
  | (host, r2) => do
      let (_, r3) ← takeSpaces1 r2
      let (prog, pid, r4) ← findProg [] r3
      let msg ← takeMessage r4
      some (String.mk host, String.mk prog, pid.map String.mk, String.mk msg)

structure BsdCaptures where
  priority : Option String
  timestampStr : String
  hostname : String
  program : String
  pid : Option String
  message : String
deriving DecidableEq

/-- Match against `SYSLOG_BSD_REGEX` starting after the optional priority
prefix. -/
def bsdFrom (prio : Option String) (cs : List Char) : Option BsdCaptures := do
  let (ts, r1) ← bsdTimestamp cs
  let (host, prog, pid, msg) ← tailMatch r1
  some ⟨prio, String.mk ts, host, prog, pid, msg⟩

/-- Source: `rawLog.match(SYSLOG_BSD_REGEX)`.  The optional prefix backtracks: if
the rest fails with the priority consumed, the regex retries without it. -/
def bsdMatch (raw : String) : Option BsdCaptures :=
  let cs := raw.toList
  match tryPriority cs with
  | some (p, rest) =>
      match bsdFrom (some p) rest with
      | some c => some c
      | none => bsdFrom none cs
  | none => bsdFrom none cs

/-- Source: `\d{n}` for a fixed `n`. -/
def takeNDigits : Nat → List Char → Option (List Char × List Char)
  | 0, cs => some ([], cs)
  | n + 1, c :: tl =>
      if c.isDigit then do
        let (ds, rest) ← takeNDigits n tl
        some (c :: ds, rest)
      else none
  | _ + 1, [] => none

/-- The capture
`(\d{4}-\d{2}-\d{2}T\d{2}:\d{2}:\d{2}(?:\.\d+)?(?:[+-]\d{2}:\d{2}|Z)?)`.
A `.`, `+` or `-` that starts but fails its optional group cannot be
matched by any later token, so each optional is committed once its first
character is present. -/
def isoTimestamp (cs : List Char) : Option (List Char × List Char) := do
  let (y, r1) ← takeNDigits 4 cs
  match r1 with
  | '-' :: r2 => do
    let (mo, r3) ← takeNDigits 2 r2
    match r3 with
    | '-' :: r4 => do
      let (d, r5) ← takeNDigits 2 r4
      match r5 with
      | 'T' :: r6 => do
        let (clock, r7) ← takeClock r6
        let (frac, r8) ←
          match r7 with
          | '.' :: t =>
              match t.span Char.isDigit with
              | ([], _) => none
              | (ds, rest) => some ('.' :: ds, rest)
          | _ => some ([], r7)
        let (tz, r9) ←
          match r8 with
          | 'Z' :: t => some (['Z'], t)
          | '+' :: t => do
              let (h, t1) ← takeNDigits 2 t
              match t1 with
              | ':' :: t2 => do
                  let (m, t3) ← takeNDigits 2 t2
                  some ('+' :: h ++ ':' :: m, t3)
              | _ => none
          | '-' :: t => do
              let (h, t1) ← takeNDigits 2 t
              match t1 with
              | ':' :: t2 => do
                  let (m, t3) ← takeNDigits 2 t2
                  some ('-' :: h ++ ':' :: m, t3)
              | _ => none
          | _ => some ([], r8)
        some (y ++ '-' :: mo ++ '-' :: d ++ 'T' :: clock ++ frac ++ tz, r9)
      | _ => none
    | _ => none
  | _ => none

structure IsoCaptures where
  timestampStr : String
  hostname : String
  program : String
  pid : Option String
  message : String
deriving DecidableEq

/-- Source: `rawLog.match(SYSLOG_ISO_REGEX)`. -/
def isoMatch (raw : String) : Option IsoCaptures := do
  let (ts, r1) ← isoTimestamp raw.toList
  let (host, prog, pid, msg) ← tailMatch r1
  some ⟨String.mk ts, host, prog, pid, msg⟩

/-- The `{facility, severity}` pair `parsePriority` returns. -/
structure Priority where
  facility : Nat
  severity : Nat
deriving DecidableEq

/-- Source: `parsePriority(priority)` (lines 19-25): `parseInt(priority) || 13`
(an absent capture gives `NaN`, and `0` is falsy, so both fall back to the
default `13` = user.notice), then div/mod 8. -/
def parsePriority (priority : Option String) : Priority :=
  let pri : Nat :=
    match priority with
    | some s =>
        match strToNat s with
        | some n => if n = 0 then 13 else n
        | none => 13
    | none => 13
  ⟨pri / 8, pri % 8⟩

/-- Source: `mapSeverity(syslogSeverity)` (lines 28-32). -/
def mapSeverity (syslogSeverity : Nat) : String :=
  if syslogSeverity ≤ 2 then "critical"
  else if syslogSeverity ≤ 4 then "warning"
  else "info"

/-- Source: `classifyEvent(program, message)` (lines 62-92). -/
def classifyEvent (program message : String) : String :=
  let prog := strLower program
  let msg := strLower message
  if prog == "sshd" || prog == "su" || prog == "sudo" || prog == "login"
      || prog == "passwd" then "authentication"
  else if prog == "iptables" || prog == "ufw" || prog == "firewalld"
      || strIncludes msg "firewall" then "firewall"
  else if prog == "dhclient" || prog == "networkmanager"
      || strIncludes msg "connection" then "network"
  else if prog == "kernel" || prog == "systemd" || prog == "init" then "system"
  else if prog == "cron" || strIncludes msg "process" || strIncludes msg "started"
      || strIncludes msg "stopped" then "process"
  else "system"

/-- Source: `parsed_data.priority`: `parseInt(priority) || null`. -/
def priorityValue (priority : Option String) : JSValue :=
  match priority with
  | some s =>
      match strToNat s with
      | some n => if n = 0 then .null else .num n
      | none => .null
  | none => .null

/-- Source: `parse(rawLog, metadata)` of syslogParser.js (lines 94-158). -/
def syslogParse (rawLog : String) (metadata : JSValue) : Event :=
  match bsdMatch rawLog with
  | some c =>
      let pr := parsePriority c.priority
      { timestamp := .bsd c.timestampStr
        source := "syslog"
        event_type := classifyEvent c.program c.message
        severity := mapSeverity pr.severity
        hostname := .str c.hostname
        description := "[" ++ c.program ++ "] " ++ c.message
        raw_log := .raw rawLog
        parsed_data := .ofList
          [("format", .str "bsd"),
           ("priority", priorityValue c.priority),
           ("facility", .num (pr.facility : Int)),
           ("syslog_severity", .num (pr.severity : Int)),
           ("program", .str c.program),
           ("pid", match c.pid with
             | some s => .num (((strToNat s).getD 0 : Nat) : Int)
             | none => .null),
           ("message", .str c.message)] }
  | none =>
      match isoMatch rawLog with
      | some c =>
          { timestamp := .isoOf c.timestampStr
            source := "syslog"
            event_type := classifyEvent c.program c.message
            severity := "info"
            hostname := .str c.hostname
            description := "[" ++ c.program ++ "] " ++ c.message
            raw_log := .raw rawLog
            parsed_data := .ofList
              [("format", .str "iso"),
               ("program", .str c.program),
               ("pid", match c.pid with
                 | some s => .num (((strToNat s).getD 0 : Nat) : Int)
                 | none => .null),
               ("message", .str c.message)] }
      | none =>
          { timestamp := .isoNow
            source := "syslog"
            event_type := "system"
            severity := "info"
            hostname := jsOr (jsIndex metadata "hostname") (.str "unknown")
            description := strTrim rawLog
            raw_log := .raw rawLog
            parsed_data := .ofList [("format", .str "non-standard")] }

/-! ## Windows event parser (the Windows security-event parser module)

Events arrive as decoded JSON (`JSValue`).  JS property access on `null` or
`undefined` throws, so `parseWindowsEvent` returns `Except Unit Event` with
`error` for those receivers (the first thing the source does is read
`event.Id`); on every other JSON value property reads yield `undefined` and
the function is total. -/

structure WinMapping where
  type : String
  severity : String
  desc : String
deriving DecidableEq

/-- Source: `EVENT_MAPPINGS` — JS object lookup converts the bracket key to a
string, so the table is keyed by the canonical decimal strings. -/
def eventMappings (key : String) : Option WinMapping :=
  if key = "4624" then some ⟨"authentication", "info", "Successful logon"⟩
  else if key = "4625" then some ⟨"authentication", "warning", "Failed logon"⟩
  else if key = "4634" then some ⟨"authentication", "info", "Logoff"⟩
  else if key = "4647" then some ⟨"authentication", "info", "User initiated logoff"⟩
  else if key = "4648" then some ⟨"authentication", "info", "Logon using explicit credentials"⟩
  else if key = "4672" then some ⟨"privilege", "warning", "Special privileges assigned"⟩
  else if key = "4720" then some ⟨"account", "warning", "User account created"⟩
  else if key = "4722" then some ⟨"account", "warning", "User account enabled"⟩
  else if key = "4723" then some ⟨"account", "info", "Password change attempted"⟩
  else if key = "4724" then some ⟨"account", "warning", "Password reset attempted"⟩
  else if key = "4725" then some ⟨"account", "warning", "User account disabled"⟩
  else if key = "4726" then some ⟨"account", "warning", "User account deleted"⟩
  else if key = "4738" then some ⟨"account", "info", "User account changed"⟩
  else if key = "4740" then some ⟨"account", "warning", "User account locked out"⟩
  else if key = "4688" then some ⟨"process", "info", "New process created"⟩
  else if key = "4689" then some ⟨"process", "info", "Process exited"⟩
  else if key = "7045" then some ⟨"service", "warning", "New service installed"⟩
  else if key = "4697" then some ⟨"service", "warning", "Service installed"⟩
  else if key = "4656" then some ⟨"file_access", "info", "Handle requested"⟩
  else if key = "4663" then some ⟨"file_access", "info", "Object access attempted"⟩
  else if key = "4719" then some ⟨"policy", "critical", "System audit policy changed"⟩
  else if key = "1102" then some ⟨"security", "critical", "Audit log cleared"⟩
  else if key = "4616" then some ⟨"security", "critical", "System time changed"⟩
  else if key = "4698" then some ⟨"scheduled_task", "warning", "Scheduled task created"⟩
  else if key = "4699" then some ⟨"scheduled_task", "info", "Scheduled task deleted"⟩
  else if key = "4702" then some ⟨"scheduled_task", "warning", "Scheduled task updated"⟩
  else none

/-- Source: `LOGON_TYPES` (string-keyed for the same bracket-lookup reason). -/
def logonTypes (key : String) : Option String :=
  if key = "2" then some "Interactive"
  else if key = "3" then some "Network"
  else if key = "4" then some "Batch"
  else if key = "5" then some "Service"
  else if key = "7" then some "Unlock"
  else if key = "8" then some "NetworkCleartext"
  else if key = "9" then some "NewCredentials"
  else if key = "10" then some "RemoteInteractive"
  else if key = "11" then some "CachedInteractive"
  else none

/-- Source: `props[i]?.Value || props[i]` — a positional property that may be
either wrapped in a `{Value: …}` object or raw. -/
def propVal (xs : JSList) (i : Nat) : JSValue :=
  let e := (xs.get? i).getD .undefined
  jsOr (jsIndex e "Value") e

/-- JS object assignment `o.k = v`: overwrite in place or append. -/
def JSFields.set : JSFields → String → JSValue → JSFields
  | .nil, k, v => .cons k v .nil
  | .cons k0 v0 tl, k, v =>
      if k0 = k then .cons k0 v tl else .cons k0 v0 (JSFields.set tl k v)

/-- The generic fallback loop of `extractUser`. -/
def genericUser : List JSValue → JSValue
  | [] => .null
  | p :: tl =>
      let val := jsOr (jsIndex p "Value") p
      match val with
      | .str s =>
          if s ≠ "" && !strIncludes s "\\" && !strIncludes s "-" then .str s
          else genericUser tl
      | _ => genericUser tl

/-- Source: `extractUser(properties, eventId)`. -/
def extractUser (properties : JSValue) (eventId : JSValue) : JSValue :=
  match properties with
  | .arr xs =>
      if jsStrictEq eventId (.num 4624) || jsStrictEq eventId (.num 4625) then
        jsOr (propVal xs 5) .null
      else if jsStrictEq eventId (.num 4688) then
        jsOr (propVal xs 1) .null
      else genericUser xs.toList
  | _ => .null

/-- Source: `event.Properties || event.properties || []`, narrowed to an array for
the `props.length >= n` guard (`.length` of a non-array property bag is
`undefined`, and `undefined >= n` is false). -/
def winProps (v : JSValue) : Option JSList :=
  match jsOr (jsIndex v "Properties") (jsOr (jsIndex v "properties") (.arr .nil)) with
  | .arr xs => some xs
  | _ => none

/-- Source: `parseLogonEvent(parsed, event)` for event ids 4624/4625. -/
def parseLogonEvent (parsed : Event) (v : JSValue) : Event :=
  match winProps v with
  | none => parsed
  | some xs =>
    if xs.length ≥ 10 then
      let logonType := (logonTypes (jsToString (propVal xs 8))).getD "Unknown"
      let targetUser := propVal xs 5
      let sourceIp := jsOr (propVal xs 18) (.str "local")
      let pd := ((((((parsed.parsed_data.set "logon_type" (.str logonType)).set
        "target_user" targetUser).set
        "target_domain" (propVal xs 6)).set
        "source_ip" sourceIp).set
        "source_port" (propVal xs 19)).set
        "workstation" (propVal xs 11))
      if jsStrictEq (jsIndex v "Id") (.num 4625) then
        { parsed with
            parsed_data := pd.set "failure_reason" (propVal xs 13)
            description := "Failed " ++ logonType ++ " logon for " ++
              jsToString targetUser ++ " from " ++ jsToString sourceIp }
      else
        { parsed with
            parsed_data := pd
            description := logonType ++ " logon for " ++
              jsToString targetUser ++ " from " ++ jsToString sourceIp }
    else parsed

/-- Source: `new_process_name?.split('\\').pop() || 'Unknown'`.  A truthy
non-string would make JS `.split` throw; process names in scope are
strings or absent. -/
def processNameOf (v : JSValue) : String :=
  match v with
  | .str s =>
      match (strSplit s '\\').getLast? with
      | some last => if last = "" then "Unknown" else last
      | none => "Unknown"
  | _ => "Unknown"

/-- Source: `(props[5]?.Value || props[5] || '').toLowerCase()` (same string
proviso as `processNameOf`). -/
def processPathOf (xs : JSList) : String :=
  match jsOr (propVal xs 5) (.str "") with
  | .str s => strLower s
  | _ => ""

/-- Source: `parseProcessEvent(parsed, event)` for event id 4688: extracts the
positional fields and escalates processes launched from temp
directories. -/
def parseProcessEvent (parsed : Event) (v : JSValue) : Event :=
  match winProps v with
  | none => parsed
  | some xs =>
    if xs.length ≥ 10 then
      let pd := (((parsed.parsed_data.set "new_process_name" (propVal xs 5)).set
        "command_line" (propVal xs 8)).set
        "creator_process" (propVal xs 13)).set "token_elevation" (propVal xs 6)
      let processName := processNameOf (propVal xs 5)
      let processPath := processPathOf xs
      if strIncludes processPath "\\temp\\" || strIncludes processPath "\\tmp\\"
          || strIncludes processPath "\\appdata\\local\\temp" then
        { parsed with
            parsed_data := pd
            severity := "warning"
            description := "Suspicious: Process from temp directory: " ++ processName }
      else
        { parsed with
            parsed_data := pd
            description := "Process created: " ++ processName }
    else parsed

/-- Source: `parseServiceEvent(parsed, event)` for event ids 7045/4697. -/
def parseServiceEvent (parsed : Event) (v : JSValue) : Event :=
  match winProps v with
  | none => parsed
  | some xs =>
    if xs.length ≥ 5 then
      let pd := (((((parsed.parsed_data.set "service_name" (propVal xs 0)).set
        "service_path" (propVal xs 1)).set
        "service_type" (propVal xs 2)).set
        "service_start_type" (propVal xs 3)).set
        "service_account" (propVal xs 4))
      let serviceName :=
        if jsTruthy (propVal xs 0) then jsToString (propVal xs 0) else "Unknown"
      { parsed with
          parsed_data := pd
          description := "New service installed: " ++ serviceName }
    else parsed

/-- The body of `parseWindowsEvent(event)` for a non-null receiver. -/
def parseWindowsEventObj (v : JSValue) : Event :=
  let eventId := jsOr (jsIndex v "Id") (jsOr (jsIndex v "EventId") (jsIndex v "event_id"))
  let mapping := (eventMappings (jsToString eventId)).getD
    ⟨"windows", "info", "Windows Event " ++ jsToString eventId⟩
  let t := jsOr (jsIndex v "TimeCreated") (jsIndex v "time_created")
  let base : Event :=
    { timestamp := if jsTruthy t then .winGiven t else .isoNow
      source := "windows"
      event_type := mapping.type
      severity := mapping.severity
      hostname := jsOr (jsIndex v "MachineName")
        (jsOr (jsIndex v "Computer") (jsIndex v "hostname"))
      description := mapping.desc
      raw_log := .stringified v
      parsed_data := .ofList
        [("event_id", eventId),
         ("provider", jsOr (jsIndex v "ProviderName") (jsIndex v "provider")),
         ("log_name", jsOr (jsIndex v "LogName")
            (jsOr (jsIndex v "log_name") (.str "Security"))),
         ("level", jsOr (jsIndex v "Level") (jsIndex v "level")),
         ("keywords", jsOr (jsIndex v "Keywords") (jsIndex v "keywords")),
         ("task", jsOr (jsIndex v "Task") (jsIndex v "task")),
         ("opcode", jsOr (jsIndex v "Opcode") (jsIndex v "opcode"))] }
  let props := jsOr (jsIndex v "Properties") (jsIndex v "properties")
  let base :=
    if jsTruthy props then
      { base with
          user := extractUser props eventId
          parsed_data := base.parsed_data.set "properties" props }
    else base
  if jsStrictEq eventId (.num 4624) || jsStrictEq eventId (.num 4625) then
    parseLogonEvent base v
  else if jsStrictEq eventId (.num 4688) then
    parseProcessEvent base v
  else if jsStrictEq eventId (.num 7045) || jsStrictEq eventId (.num 4697) then
    parseServiceEvent base v
  else base

/-- Source: `parseWindowsEvent(event)`: reading `event.Id` of `null`/`undefined`
throws a `TypeError` in JS; every other decoded JSON value flows through
totally. -/
def parseWindowsEvent (v : JSValue) : Except Unit Event :=
  match v with
  | .null => .error ()
  | .undefined => .error ()
  | _ => .ok (parseWindowsEventObj v)

/-- Source: `parse(rawData, metadata)` of the Windows parser for a string
`rawData`.  `jsonResult` models the built-in `JSON.parse(rawData)`:
`none` when it throws (caught by the source, which then returns the
degraded non-json event), `some v` when it yields `v`. -/
def windowsParse (jsonResult : Option JSValue) (rawData : String) (metadata : JSValue) :
    Except Unit Event :=
  match jsonResult with
  | none =>
      .ok { timestamp := .isoNow
            source := "windows"
            event_type := "windows"
            severity := "info"
            hostname := jsOr (jsIndex metadata "hostname") (.str "unknown")
            description := rawData
            raw_log := .raw rawData
            parsed_data := .ofList [("format", .str "non-json")] }
  | some v => parseWindowsEvent v

/-! ## State-map lemmas -/

theorem mapGet_set_self (m : StateMap) (k : String) (v : ThState) :
    mapGet (mapSet m k v) k = some v := by
  induction m with
  | nil => simp [mapSet, mapGet]
  | cons hd tl ih =>
      obtain ⟨k0, v0⟩ := hd
      by_cases h : k0 = k <;> simp [mapSet, mapGet, h, ih]

theorem mapSet_set (m : StateMap) (k : String) (a b : ThState) :
    mapSet (mapSet m k a) k b = mapSet m k b := by
  induction m with
  | nil => simp [mapSet]
  | cons hd tl ih =>
      obtain ⟨k0, v0⟩ := hd
      by_cases h : k0 = k <;> simp [mapSet, h, ih]

theorem mapSet_self (m : StateMap) (k : String) (v : ThState)
    (h : mapGet m k = some v) : mapSet m k v = m := by
  induction m with
  | nil => simp [mapGet] at h
  | cons hd tl ih =>
      obtain ⟨k0, v0⟩ := hd
      by_cases hk : k0 = k
      · subst hk
        simp [mapGet] at h
        simp [mapSet, h]
      · simp [mapGet, hk] at h
        simp [mapSet, hk, ih h]

/-! ## Flattened form of the field-level checks

Helper view of `matchesCondition` on a node without `any`/`all`: each
present check as a positive boolean, mirroring the source's early
`return false`s. -/

def equalsCheck (fieldValue : JSValue) : Option JSValue → Bool
  | some v => jsStrictEq fieldValue v
  | none => true

def containsCheck (fieldValue : JSValue) : Option JSValue → Bool
  | some v =>
      jsTruthy fieldValue &&
        strIncludes (strLower (jsToString fieldValue)) (strLower (jsToString v))
  | none => true

def containsAnyCheck (fieldValue : JSValue) : Option (List JSValue) → Bool
  | some vs =>
      jsTruthy fieldValue &&
        vs.any (fun c =>
          strIncludes (strLower (jsToString fieldValue)) (strLower (jsToString c)))
  | none => true

def matchesCheck (re : String → Option (String → Bool)) (fieldValue : JSValue) :
    Option String → Bool
  | some pat =>
      match re pat with
      | some tester => jsTruthy fieldValue && tester (jsToString fieldValue)
      | none => false
  | none => true

def notCheck (re : String → Option (String → Bool)) (ev : JSValue) : CondOpt → Bool
  | .some c => !matchesCondition re ev c
  | .none => true

def addCheck (re : String → Option (String → Bool)) (ev : JSValue) : CondOpt → Bool
  | .some c => matchesCondition re ev c
  | .none => true

/-- The source's sequential `if (fail) return false` chain. -/
def failChain (a b c d e f : Bool) : Bool :=
  if a then false
  else if b then false
  else if c then false
  else if d then false
  else if e then false
  else if f then false
  else true

theorem failChain_eq (a b c d e f : Bool) :
    failChain a b c d e f = (!a && !b && !c && !d && !e && !f) := by
  cases a <;> cases b <;> cases c <;> cases d <;> cases e <;> cases f <;> rfl

theorem matchesCondition_as_chain (re : String → Option (String → Bool))
    (ev : JSValue) (f : Option String) (eq ct : Option JSValue)
    (ca : Option (List JSValue)) (mt : Option String) (nt ad : CondOpt) :
    matchesCondition re ev (.mk .none .none f eq ct ca mt nt ad) =
      failChain
        (eqFails (getFieldValue ev f) eq)
        (containsFails (getFieldValue ev f) ct)
        (containsAnyFails (getFieldValue ev f) ca)
        (matchesFails re (getFieldValue ev f) mt)
        (notMatches re ev nt)
        (addFails re ev ad) := by
  simp only [matchesCondition, failChain]

theorem not_eqFails (fv : JSValue) (eq : Option JSValue) :
    (!eqFails fv eq) = equalsCheck fv eq := by
  cases eq <;> simp [eqFails, equalsCheck]

theorem not_containsFails (fv : JSValue) (ct : Option JSValue) :
    (!containsFails fv ct) = containsCheck fv ct := by
  cases ct <;> simp [containsFails, containsCheck, Bool.not_or]

theorem not_containsAnyFails (fv : JSValue) (ca : Option (List JSValue)) :
    (!containsAnyFails fv ca) = containsAnyCheck fv ca := by
  cases ca with
  | none => simp [containsAnyFails, containsAnyCheck]
  | some vs => cases h : jsTruthy fv <;> simp [containsAnyFails, containsAnyCheck, h]

theorem not_matchesFails (re : String → Option (String → Bool)) (fv : JSValue)
    (mt : Option String) : (!matchesFails re fv mt) = matchesCheck re fv mt := by
  cases mt with
  | none => simp [matchesFails, matchesCheck]
  | some pat => cases h : re pat <;> simp [matchesFails, matchesCheck, h, Bool.not_or]

theorem not_notMatches (re : String → Option (String → Bool)) (ev : JSValue)
    (nt : CondOpt) : (!notMatches re ev nt) = notCheck re ev nt := by
  cases nt <;> simp [notMatches, notCheck]

theorem not_addFails (re : String → Option (String → Bool)) (ev : JSValue)
    (ad : CondOpt) : (!addFails re ev ad) = addCheck re ev ad := by
  cases ad <;> simp [addFails, addCheck]

/-- Claim C3 (amended): `any` and `all` short-circuit the whole node — when
`any` is present the node's value is exactly the disjunction of its
sub-conditions, and when `all` is present (and `any` absent) exactly the
conjunction, other keys on the node being ignored; only on a node without
`any`/`all` are all present checks (`equals`, `contains`, `contains_any`,
`matches`, `not`, `additional`) AND-ed together. -/
theorem matcher_and_semantics :
    (∀ (re : String → Option (String → Bool)) (ev : JSValue) (cs : CondList)
       (allC : CondListOpt) (f : Option String) (eq ct : Option JSValue)
       (ca : Option (List JSValue)) (mt : Option String) (nt ad : CondOpt),
       matchesCondition re ev (.mk (.some cs) allC f eq ct ca mt nt ad) =
         anyMatches re ev cs) ∧
    (∀ (re : String → Option (String → Bool)) (ev : JSValue) (cs : CondList)
       (f : Option String) (eq ct : Option JSValue)
       (ca : Option (List JSValue)) (mt : Option String) (nt ad : CondOpt),
       matchesCondition re ev (.mk .none (.some cs) f eq ct ca mt nt ad) =
         allMatches re ev cs) ∧
    (∀ (re : String → Option (String → Bool)) (ev : JSValue) (f : Option String)
       (eq ct : Option JSValue) (ca : Option (List JSValue)) (mt : Option String)
       (nt ad : CondOpt),
       matchesCondition re ev (.mk .none .none f eq ct ca mt nt ad) =
         (equalsCheck (getFieldValue ev f) eq &&
          containsCheck (getFieldValue ev f) ct &&
          containsAnyCheck (getFieldValue ev f) ca &&
          matchesCheck re (getFieldValue ev f) mt &&
          notCheck re ev nt &&
          addCheck re ev ad)) := by
  refine ⟨fun _ _ _ _ _ _ _ _ _ _ _ => rfl, fun _ _ _ _ _ _ _ _ _ _ => rfl,
    fun re ev f eq ct ca mt nt ad => ?_⟩
  rw [matchesCondition_as_chain, failChain_eq, not_eqFails, not_containsFails,
    not_containsAnyFails, not_matchesFails, not_notMatches, not_addFails]

def c3Event : JSValue := .obj (.ofList [("a", .num 1)])

def c3AnyList : CondList :=
  .ofList [Condition.mk .none .none (some "a") (some (.num 1)) none none none .none .none]

/-- The equals check carried on the same node as `any` in `c3Node`. -/
def c3FieldOnly : Condition :=
  .mk .none .none (some "b") (some (.num 2)) none none none .none .none

/-- A node carrying both an `any` list and a field-level equals check. -/
def c3Node : Condition :=
  .mk (.some c3AnyList) .none (some "b") (some (.num 2)) none none none .none .none

/-- Claim C3 counterexample: on the event `{a: 1}` the node `c3Node`
matches (its `any` arm matches) even though its own field-level check
(`b` equals 2) fails — the checks on one node are not all AND-ed. -/
theorem c3_any_overrides_field_check :
    matchesCondition (fun _ => none) c3Event c3Node = true ∧
    matchesCondition (fun _ => none) c3Event c3FieldOnly = false :=
  ⟨rfl, rfl⟩

/-- Claim C9: condition evaluation fails closed — a `matches` check whose
pattern does not compile makes the node non-matching whatever else is on
the node, and a missing (`undefined`) field value is a non-match for
`equals` (against the non-`undefined` values JSON rules can hold),
`contains`, and compiling `matches` checks; the embedding is a total
function, so no input raises. -/
theorem matcher_fails_closed :
    (∀ (re : String → Option (String → Bool)) (ev : JSValue) (f : Option String)
       (eq ct : Option JSValue) (ca : Option (List JSValue)) (pat : String)
       (nt ad : CondOpt), re pat = none →
       matchesCondition re ev (.mk .none .none f eq ct ca (some pat) nt ad) = false) ∧
    (∀ (re : String → Option (String → Bool)) (ev : JSValue) (f : Option String)
       (cmp : JSValue), getFieldValue ev f = .undefined → cmp ≠ .undefined →
       matchesCondition re ev (.mk .none .none f (some cmp) none none none .none .none) = false) ∧
    (∀ (re : String → Option (String → Bool)) (ev : JSValue) (f : Option String)
       (v : JSValue), getFieldValue ev f = .undefined →
       matchesCondition re ev (.mk .none .none f none (some v) none none .none .none) = false) ∧
    (∀ (re : String → Option (String → Bool)) (ev : JSValue) (f : Option String)
       (pat : String) (tester : String → Bool),
       getFieldValue ev f = .undefined → re pat = some tester →
       matchesCondition re ev (.mk .none .none f none none none (some pat) .none .none) = false) := by
  refine ⟨?_, ?_, ?_, ?_⟩
  · intro re ev f eq ct ca pat nt ad hre
    rw [matchesCondition_as_chain, failChain_eq]
    simp [matchesFails, hre]
  · intro re ev f cmp hf hcmp
    rw [matchesCondition_as_chain, failChain_eq, hf]
    have hne : jsStrictEq .undefined cmp = false := by
      cases cmp <;> simp_all [jsStrictEq]
    simp [eqFails, hne]
  · intro re ev f v hf
    rw [matchesCondition_as_chain, failChain_eq, hf]
    simp [containsFails, jsTruthy]
  · intro re ev f pat tester hf hre
    rw [matchesCondition_as_chain, failChain_eq, hf]
    simp [matchesFails, hre, jsTruthy]

/-- Concrete instances of `matcher_fails_closed`: a broken pattern on the
default-rule shape, and missing fields against each check kind. -/
theorem matcher_fails_closed_witness :
    matchesCondition (fun _ => none) c3Event
      (.mk .none .none (some "a") none none none (some "(") .none .none) = false ∧
    matchesCondition (fun _ => none) c3Event
      (.mk .none .none (some "missing") (some (.str "x")) none none none .none .none) = false ∧
    matchesCondition (fun _ => none) c3Event
      (.mk .none .none (some "missing") none (some (.str "x")) none none .none .none) = false ∧
    matchesCondition (fun p => if p = "^x" then some (fun _ => true) else none) c3Event
      (.mk .none .none (some "missing") none none none (some "^x") .none .none) = false :=
  ⟨matcher_fails_closed.1 (fun _ => none) c3Event (some "a") none none none "(" .none .none rfl,
   matcher_fails_closed.2.1 (fun _ => none) c3Event (some "missing") (.str "x") rfl (by decide),
   matcher_fails_closed.2.2.1 (fun _ => none) c3Event (some "missing") (.str "x") rfl,
   matcher_fails_closed.2.2.2 (fun p => if p = "^x" then some (fun _ => true) else none)
     c3Event (some "missing") "^x" (fun _ => true) rfl rfl⟩

/-! ## Parser claims -/

/-- The BSD auth line of the spec's round-trip property. -/
def c5Line : String :=
  "<13>Jan 18 10:30:45 web-server-01 sshd[1234]: Failed password for root from 192.168.1.100 port 22 ssh2"

/-- Claim C5 counterexample: priority 13 has syslog severity 5, and
`mapSeverity` sends 5 (> 4) to `info`, not `warning` — the parsed line's
severity is `info`. -/
theorem c5_severity_is_info_not_warning :
    (syslogParse c5Line (.obj .nil)).severity = "info" ∧
    (syslogParse c5Line (.obj .nil)).severity ≠ "warning" :=
  ⟨rfl, by decide⟩

/-- Claim C5 (amended): the syslog parser alone on the spec's BSD line
yields `event_type = "authentication"` (program `sshd`),
`severity = "info"` (13 mod 8 = 5, and 5 maps to info), and
`hostname = "web-server-01"`. -/
theorem c5_bsd_line_fields :
    (syslogParse c5Line (.obj .nil)).event_type = "authentication" ∧
    (syslogParse c5Line (.obj .nil)).severity = "info" ∧
    (syslogParse c5Line (.obj .nil)).hostname = .str "web-server-01" :=
  ⟨rfl, rfl, rfl⟩

/-- A kernel-emergency line with explicit priority 0. -/
def c6Line : String := "<0>Jan 18 10:30:45 web-server-01 kernel: kernel panic"

/-- Claim C6 (code bug): `parseInt(priority) || 13` treats the parsed
priority `0` as falsy, so `<0>` decodes via the default 13 to facility 1
and syslog severity 5, giving SIEM severity `info` — not facility 0,
severity 0, `critical` as the div/mod decode prescribes.  For every
positive priority the div/mod decode does hold, and the severity mapping
is as specified. -/
theorem c6_priority_decode :
    (∀ (s : String) (n : Nat), strToNat s = some n → 1 ≤ n →
      parsePriority (some s) = ⟨n / 8, n % 8⟩) ∧
    (∀ sev : Nat, sev ≤ 2 → mapSeverity sev = "critical") ∧
    (∀ sev : Nat, 3 ≤ sev → sev ≤ 4 → mapSeverity sev = "warning") ∧
    (∀ sev : Nat, 5 ≤ sev → mapSeverity sev = "info") ∧
    parsePriority (some "0") = ⟨1, 5⟩ ∧
    (syslogParse c6Line (.obj .nil)).severity = "info" ∧
    (syslogParse c6Line (.obj .nil)).parsed_data.lookup "facility" = some (.num 1) ∧
    (syslogParse c6Line (.obj .nil)).parsed_data.lookup "syslog_severity" = some (.num 5) := by
  refine ⟨?_, ?_, ?_, ?_, rfl, rfl, rfl, rfl⟩
  · intro s n hs hn
    have : n ≠ 0 := by omega
    simp [parsePriority, hs, this]
  · intro sev h
    simp [mapSeverity, h]
  · intro sev h1 h2
    have h3 : ¬sev ≤ 2 := by omega
    simp [mapSeverity, h2, h3]
  · intro sev h
    have h1 : ¬sev ≤ 2 := by omega
    have h2 : ¬sev ≤ 4 := by omega
    simp [mapSeverity, h1, h2]

/-- Concrete instances of `c6_priority_decode`'s quantified parts. -/
theorem c6_priority_decode_witness :
    parsePriority (some "13") = ⟨1, 5⟩ ∧
    mapSeverity 0 = "critical" ∧ mapSeverity 4 = "warning" ∧ mapSeverity 5 = "info" :=
  ⟨c6_priority_decode.1 "13" 13 rfl (by decide),
   c6_priority_decode.2.1 0 (by decide),
   c6_priority_decode.2.2.1 4 (by decide) (by decide),
   c6_priority_decode.2.2.2.1 5 (by decide)⟩

/-- Claim C7 (code bug): both degraded fallbacks are as specified — the
syslog parser returns the `non-standard` system event whenever both
regexes fail, and the Windows parser returns the `non-json` event whenever
`JSON.parse` throws — but a string that IS valid JSON and decodes to
`null` (the input string `"null"`) reaches `parseWindowsEvent(null)`,
whose `event.Id` read throws a `TypeError` instead of yielding an Event. -/
theorem c7_parser_fallbacks :
    (∀ (raw : String) (metadata : JSValue),
      bsdMatch raw = none → isoMatch raw = none →
      syslogParse raw metadata =
        { timestamp := .isoNow, source := "syslog", event_type := "system",
          severity := "info",
          hostname := jsOr (jsIndex metadata "hostname") (.str "unknown"),
          description := strTrim raw, raw_log := .raw raw,
          parsed_data := .ofList [("format", .str "non-standard")] }) ∧
    (∀ (raw : String) (metadata : JSValue),
      windowsParse none raw metadata =
        .ok { timestamp := .isoNow, source := "windows", event_type := "windows",
              severity := "info",
              hostname := jsOr (jsIndex metadata "hostname") (.str "unknown"),
              description := raw, raw_log := .raw raw,
              parsed_data := .ofList [("format", .str "non-json")] }) ∧
    (∀ (raw : String) (metadata : JSValue),
      windowsParse (some .null) raw metadata = .error ()) := by
  refine ⟨?_, fun _ _ => rfl, fun _ _ => rfl⟩
  intro raw metadata hb hi
  simp [syslogParse, hb, hi]

/-- Concrete instance of `c7_parser_fallbacks`: garbage input takes the
degraded syslog path. -/
theorem c7_parser_fallbacks_witness :
    syslogParse "%% garbage %%" (.obj .nil) =
      { timestamp := .isoNow, source := "syslog", event_type := "system",
        severity := "info", hostname := .str "unknown",
        description := strTrim "%% garbage %%", raw_log := .raw "%% garbage %%",
        parsed_data := .ofList [("format", .str "non-standard")] } :=
  c7_parser_fallbacks.1 "%% garbage %%" (.obj .nil) rfl rfl

/-- A well-formed 4688 (process creation) Windows event whose executable
path is the argument; `Properties` follows the Security-log positional
layout (index 1 creator user, index 5 executable path, index 8 command
line, index 13 creator process). -/
def winProcProps (path : String) : JSList :=
  .ofList
    [.str "S-1-5-18", .str "admin", .str "DOM", .str "0x3e7", .str "0x1f4",
     .str path, .str "%%1936", .str "0x0", .str "cmd /c x", .str "a",
     .str "b", .str "c", .str "d", .str "parent.exe"]

def winProcEvent (path : String) : JSValue :=
  .obj (.ofList
    [("Id", .num 4688),
     ("TimeCreated", .str "2026-01-18T10:00:00Z"),
     ("MachineName", .str "WIN-1"),
     ("ProviderName", .str "Microsoft-Windows-Security-Auditing"),
     ("Properties", .arr (winProcProps path))])

/-- Claim C8 counterexample: a 4688 event started from `/tmp/evil.sh` —
a path containing the claimed substring `/tmp/` (and none of the
backslash forms) — keeps the default severity `info` and the plain
description; the parser checks only `\temp\`, `\tmp\` and
`\appdata\local\temp`. -/
theorem c8_tmp_slash_not_escalated :
    (parseWindowsEvent (winProcEvent "/tmp/evil.sh")).map Event.severity = .ok "info" ∧
    (parseWindowsEvent (winProcEvent "/tmp/evil.sh")).map Event.severity ≠ .ok "warning" ∧
    (parseWindowsEvent (winProcEvent "/tmp/evil.sh")).map Event.description =
      .ok "Process created: /tmp/evil.sh" ∧
    strIncludes (strLower "/tmp/evil.sh") "/tmp/" = true := by
  refine ⟨rfl, ?_, rfl, rfl⟩
  rw [show (parseWindowsEvent (winProcEvent "/tmp/evil.sh")).map Event.severity =
    Except.ok "info" from rfl]
  simp

/-- Claim C8 (amended): for a 4688 event with at least 10 properties whose
executable path (index 5) contains one of the case-insensitive substrings
`\temp\`, `\tmp\`, or `appdata\local\temp` preceded by a backslash, the
parsed Event is escalated from the 4688 default `info` to `warning` and
its description is rewritten to the Suspicious process-from-temp message.
(`/tmp/` is not among the checked substrings.) -/
theorem c8_temp_escalation (v : JSValue) (xs : JSList) (s : String)
    (hid : jsIndex v "Id" = .num 4688)
    (hprops : jsIndex v "Properties" = .arr xs)
    (hlen : 10 ≤ xs.length)
    (hpath : xs.get? 5 = some (.str s))
    (htemp : strIncludes (strLower s) "\\temp\\" = true ∨
             strIncludes (strLower s) "\\tmp\\" = true ∨
             strIncludes (strLower s) "\\appdata\\local\\temp" = true) :
    (parseWindowsEventObj v).severity = "warning" ∧
    (parseWindowsEventObj v).description =
      "Suspicious: Process from temp directory: " ++ processNameOf (.str s) := by
  have hprop5 : propVal xs 5 = .str s := by
    simp [propVal, hpath, jsOr, jsIndex, jsTruthy]
  have hpv : processPathOf xs = strLower s := by
    simp only [processPathOf, hprop5, jsOr]
    by_cases hs : s = "" <;> simp [jsTruthy, hs]
  have heid : jsOr (jsIndex v "Id") (jsOr (jsIndex v "EventId") (jsIndex v "event_id")) =
      .num 4688 := by simp [hid, jsOr, jsTruthy]
  have hps : jsOr (jsIndex v "Properties") (jsOr (jsIndex v "properties") (.arr .nil)) =
      .arr xs := by simp [hprops, jsOr, jsTruthy]
  have hwp : winProps v = some xs := by simp [winProps, hps]
  have htempb : (strIncludes (processPathOf xs) "\\temp\\" ||
      strIncludes (processPathOf xs) "\\tmp\\" ||
      strIncludes (processPathOf xs) "\\appdata\\local\\temp") = true := by
    rw [hpv]
    rcases htemp with h | h | h <;> simp [h]
  constructor <;>
  · simp only [parseWindowsEventObj, heid]
    rw [show jsStrictEq (JSValue.num 4688) (.num 4624) = false from rfl,
      show jsStrictEq (JSValue.num 4688) (.num 4625) = false from rfl,
      show jsStrictEq (JSValue.num 4688) (.num 4688) = true from rfl]
    simp only [Bool.false_or, Bool.or_false, Bool.or_true, if_true, if_false,
      ite_true, ite_false, Bool.false_eq_true, Bool.true_eq_false]
    simp only [parseProcessEvent, hwp]
    simp only [ge_iff_le, hlen, if_true, ite_true]
    simp [htempb, hprop5]

/-- Concrete instance of `c8_temp_escalation` at an AppData temp path. -/
theorem c8_temp_escalation_witness :
    (parseWindowsEventObj (winProcEvent "C:\\Users\\u\\AppData\\Local\\Temp\\mal.exe")).severity =
      "warning" ∧
    (parseWindowsEventObj (winProcEvent "C:\\Users\\u\\AppData\\Local\\Temp\\mal.exe")).description =
      "Suspicious: Process from temp directory: mal.exe" :=
  c8_temp_escalation (winProcEvent "C:\\Users\\u\\AppData\\Local\\Temp\\mal.exe")
    (winProcProps "C:\\Users\\u\\AppData\\Local\\Temp\\mal.exe")
    "C:\\Users\\u\\AppData\\Local\\Temp\\mal.exe"
    rfl rfl (by decide) rfl (Or.inr (Or.inr (by decide)))

/-! ## Threshold-rule step lemmas

One `processThresholdRule` call, characterized under the hypotheses of the
scenarios: the event matches, carries a numeric timestamp equal to the
processing wall clock, and the group value resolves to `g`. -/

/-- Fresh group (no state yet) below threshold: count becomes 1. -/
theorem processThresholdRule_fresh (re : String → Option (String → Bool))
    (rule : ThresholdRule) (gb : String) (g : JSValue) (ev : JSValue) (now : Int)
    (m : StateMap)
    (hgb : rule.group_by = some gb) (hgbne : gb ≠ "")
    (hmatch : matchesCondition re ev rule.cond = true)
    (hg : getFieldValue ev (some gb) = g)
    (hts : jsIndex ev "timestamp" = .num now)
    (hW : 1 ≤ jsOrInt rule.window_seconds 60)
    (hget : mapGet m (rule.meta.id ++ ":" ++ jsToString g) = none)
    (hthr : ¬((1 : Int) ≥ jsOrInt rule.threshold 5)) :
    processThresholdRule re rule ev now m =
      (none, mapSet m (rule.meta.id ++ ":" ++ jsToString g)
        ⟨1, now, [⟨jsIndex ev "id", .num now⟩]⟩) := by
  simp only [processThresholdRule, hmatch, groupValueOf, hgb, hgbne, hg, hget,
    Bool.not_true, if_false, ite_false, Bool.false_eq_true]
  have hfresh : now - dateGetTime (JSValue.num now) < jsOrInt rule.window_seconds 60 * 1000 := by
    simp [dateGetTime]; nlinarith
  simp [hts, hfresh, hthr]

/-- Existing in-window state below threshold: append and count the
survivors (here: everything). -/
theorem processThresholdRule_accum (re : String → Option (String → Bool))
    (rule : ThresholdRule) (gb : String) (g : JSValue) (ev : JSValue) (now : Int)
    (m : StateMap) (st : ThState)
    (hgb : rule.group_by = some gb) (hgbne : gb ≠ "")
    (hmatch : matchesCondition re ev rule.cond = true)
    (hg : getFieldValue ev (some gb) = g)
    (hts : jsIndex ev "timestamp" = .num now)
    (hW : 1 ≤ jsOrInt rule.window_seconds 60)
    (hget : mapGet m (rule.meta.id ++ ":" ++ jsToString g) = some st)
    (hns : ¬(now - st.window_start > jsOrInt rule.window_seconds 60 * 1000))
    (hfresh : ∀ e ∈ st.events,
      now - dateGetTime e.timestamp < jsOrInt rule.window_seconds 60 * 1000)
    (hthr : ¬(((st.events.length : Int) + 1) ≥ jsOrInt rule.threshold 5)) :
    processThresholdRule re rule ev now m =
      (none, mapSet m (rule.meta.id ++ ":" ++ jsToString g)
        ⟨(st.events.length : Int) + 1, st.window_start,
          st.events ++ [⟨jsIndex ev "id", .num now⟩]⟩) := by
  simp only [processThresholdRule, hmatch, groupValueOf, hgb, hgbne, hg, hget,
    Bool.not_true, if_false, ite_false, Bool.false_eq_true]
  have hnew : now - dateGetTime (JSValue.num now) < jsOrInt rule.window_seconds 60 * 1000 := by
    simp [dateGetTime]; nlinarith
  have hfilter :
      (st.events ++ [(⟨jsIndex ev "id", .num now⟩ : StoredEvent)]).filter
        (fun e => now - dateGetTime e.timestamp < jsOrInt rule.window_seconds 60 * 1000) =
      st.events ++ [⟨jsIndex ev "id", .num now⟩] := by
    rw [List.filter_eq_self]
    intro a ha
    rcases List.mem_append.1 ha with h | h
    · simpa using hfresh a h
    · simp only [List.mem_singleton] at h
      subst h
      simpa using hnew
  simp [hts, hns, hfilter, hthr]

/-- Existing in-window state reaching the threshold: alert and reset. -/
theorem processThresholdRule_fire (re : String → Option (String → Bool))
    (rule : ThresholdRule) (gb : String) (g : JSValue) (ev : JSValue) (now : Int)
    (m : StateMap) (st : ThState)
    (hgb : rule.group_by = some gb) (hgbne : gb ≠ "")
    (hmatch : matchesCondition re ev rule.cond = true)
    (hg : getFieldValue ev (some gb) = g)
    (hts : jsIndex ev "timestamp" = .num now)
    (hW : 1 ≤ jsOrInt rule.window_seconds 60)
    (hget : mapGet m (rule.meta.id ++ ":" ++ jsToString g) = some st)
    (hns : ¬(now - st.window_start > jsOrInt rule.window_seconds 60 * 1000))
    (hfresh : ∀ e ∈ st.events,
      now - dateGetTime e.timestamp < jsOrInt rule.window_seconds 60 * 1000)
    (hthr : ((st.events.length : Int) + 1) ≥ jsOrInt rule.threshold 5) :
    processThresholdRule re rule ev now m =
      (some (createAlert ev rule.meta
        (thresholdDetail ((st.events.length : Int) + 1) rule.window_seconds g)),
       mapSet m (rule.meta.id ++ ":" ++ jsToString g) ⟨0, now, []⟩) := by
  simp only [processThresholdRule, hmatch, groupValueOf, hgb, hgbne, hg, hget,
    Bool.not_true, if_false, ite_false, Bool.false_eq_true]
  have hnew : now - dateGetTime (JSValue.num now) < jsOrInt rule.window_seconds 60 * 1000 := by
    simp [dateGetTime]; nlinarith
  have hfilter :
      (st.events ++ [(⟨jsIndex ev "id", .num now⟩ : StoredEvent)]).filter
        (fun e => now - dateGetTime e.timestamp < jsOrInt rule.window_seconds 60 * 1000) =
      st.events ++ [⟨jsIndex ev "id", .num now⟩] := by
    rw [List.filter_eq_self]
    intro a ha
    rcases List.mem_append.1 ha with h | h
    · simpa using hfresh a h
    · simp only [List.mem_singleton] at h
      subst h
      simpa using hnew
  simp [hts, hns, hfilter, hthr, mapSet_set]

theorem key_undefined_eq (s : String) :
    s ++ ":" ++ jsToString JSValue.undefined = s ++ ":undefined" := by
  rw [String.append_assoc]; rfl

/-- Claim C10: when the dotted `group_by` path is absent from matching
events, the group value is `undefined`, so such events — whatever their
other fields — land in and are counted together in the single state
bucket keyed `ruleId:undefined`, for the threshold handler (count reaches
2) and for the correlation stage-0 accumulator alike. -/
theorem c10_missing_group_shares_undefined_bucket :
    (∀ (re : String → Option (String → Bool)) (rule : ThresholdRule) (gb : String)
       (e1 e2 : JSValue) (t1 t2 : Int),
      rule.group_by = some gb → gb ≠ "" →
      matchesCondition re e1 rule.cond = true → matchesCondition re e2 rule.cond = true →
      getFieldValue e1 (some gb) = .undefined → getFieldValue e2 (some gb) = .undefined →
      jsIndex e1 "timestamp" = .num t1 → jsIndex e2 "timestamp" = .num t2 →
      1 ≤ jsOrInt rule.window_seconds 60 →
      3 ≤ jsOrInt rule.threshold 5 →
      t1 ≤ t2 → t2 - t1 < jsOrInt rule.window_seconds 60 * 1000 →
      runThreshold re rule [] [(e1, t1), (e2, t2)] =
        ([none, none],
         [(rule.meta.id ++ ":undefined",
           ⟨2, t1, [⟨jsIndex e1 "id", .num t1⟩, ⟨jsIndex e2 "id", .num t2⟩]⟩)])) ∧
    (∀ (re : String → Option (String → Bool)) (rule : CorrelationRule)
       (s0 s1 : SeqStage) (tail : List SeqStage) (c0 : Condition) (gb : String)
       (e1 e2 : JSValue) (t1 t2 : Int),
      rule.sequence = s0 :: s1 :: tail →
      rule.group_by = some gb → gb ≠ "" →
      s0.matchCond = some c0 →
      matchesCondition re e1 c0 = true → matchesCondition re e2 c0 = true →
      (∀ c1, s1.matchCond = some c1 →
        matchesCondition re e1 c1 = false ∧ matchesCondition re e2 c1 = false) →
      getFieldValue e1 (some gb) = .undefined → getFieldValue e2 (some gb) = .undefined →
      runCorrelation re rule [] [(e1, t1), (e2, t2)] =
        ([none, none],
         [(rule.meta.id ++ ":undefined",
           ⟨2, t1, [⟨jsIndex e1 "id", jsIndex e1 "timestamp"⟩,
                    ⟨jsIndex e2 "id", jsIndex e2 "timestamp"⟩]⟩)])) := by
  constructor
  · intro re rule gb e1 e2 t1 t2 hgb hgbne hm1 hm2 hg1 hg2 hts1 hts2 hW hthr hle hwin
    have h1 := processThresholdRule_fresh re rule gb .undefined e1 t1 [] hgb hgbne
      hm1 hg1 hts1 hW (by simp [mapGet]) (by omega)
    have h2 := processThresholdRule_accum re rule gb .undefined e2 t2
      (mapSet [] (rule.meta.id ++ ":" ++ jsToString JSValue.undefined)
        ⟨1, t1, [⟨jsIndex e1 "id", .num t1⟩]⟩)
      ⟨1, t1, [⟨jsIndex e1 "id", .num t1⟩]⟩ hgb hgbne hm2 hg2 hts2 hW
      (mapGet_set_self _ _ _)
      (by simp only; omega)
      (by
        intro x hx
        simp only [List.mem_singleton] at hx
        subst hx
        simp only [dateGetTime]
        omega)
      (by simp only [List.length_singleton]; omega)
    simp only [runThreshold, h1, h2]
    rw [key_undefined_eq] at h1 h2 ⊢
    simp [mapSet]
  · intro re rule s0 s1 tail c0 gb e1 e2 t1 t2 hseq hgb hgbne hc0 hm1 hm2 hs1 hg1 hg2
    have key1 : processCorrelationRule re rule e1 t1 [] =
        (none, mapSet [] (rule.meta.id ++ ":" ++ jsToString JSValue.undefined)
          ⟨1, t1, [⟨jsIndex e1 "id", jsIndex e1 "timestamp"⟩]⟩) := by
      simp only [processCorrelationRule, hseq, groupValueOf, hgb, hgbne, hg1, hc0]
      cases hsc : s1.matchCond with
      | none => simp [mapGet, hm1, mapSet]
      | some c1 =>
          have := (hs1 c1 hsc).1
          simp [this, mapGet, hm1, mapSet]
    have key2 : processCorrelationRule re rule e2 t2
        [((rule.meta.id ++ ":" ++ jsToString JSValue.undefined),
          ⟨1, t1, [⟨jsIndex e1 "id", jsIndex e1 "timestamp"⟩]⟩)] =
        (none, [((rule.meta.id ++ ":" ++ jsToString JSValue.undefined),
          ⟨2, t1, [⟨jsIndex e1 "id", jsIndex e1 "timestamp"⟩,
                   ⟨jsIndex e2 "id", jsIndex e2 "timestamp"⟩]⟩)]) := by
      simp only [processCorrelationRule, hseq, groupValueOf, hgb, hgbne, hg2, hc0]
      cases hsc : s1.matchCond with
      | none => simp [mapGet, hm2, mapSet]
      | some c1 =>
          have := (hs1 c1 hsc).2
          simp [this, mapGet, hm2, mapSet]
    simp only [runThreshold, runCorrelation, key1]
    rw [show mapSet [] (rule.meta.id ++ ":" ++ jsToString JSValue.undefined)
        ⟨1, t1, [⟨jsIndex e1 "id", jsIndex e1 "timestamp"⟩]⟩ =
        [((rule.meta.id ++ ":" ++ jsToString JSValue.undefined),
          ⟨1, t1, [⟨jsIndex e1 "id", jsIndex e1 "timestamp"⟩]⟩)] from rfl]
    simp only [runCorrelation, key2]
    rw [key_undefined_eq]

/-- Source: `parsed_data.auth_result equals "failure"` — the failure predicate of
the default rules. -/
def failCond : Condition :=
  .mk .none .none (some "parsed_data.auth_result") (some (.str "failure"))
    none none none .none .none

/-- Source: `parsed_data.auth_result equals "success"`. -/
def succCond : Condition :=
  .mk .none .none (some "parsed_data.auth_result") (some (.str "success"))
    none none none .none .none

/-- The default `brute-force-ssh` threshold rule. -/
def bruteForceSshRule : ThresholdRule :=
  { meta := { id := "brute-force-ssh",
              name := "SSH Brute Force Detection",
              description := "Detects 5 or more failed SSH logins within 60 seconds from the same IP",
              severity := "critical" },
    cond := .mk .none .none (some "parsed_data.auth_type") (some (.str "ssh"))
      none none none .none (.some failCond),
    threshold := some 5,
    window_seconds := some 60,
    group_by := some "parsed_data.source_ip" }

/-- The default `login-after-failures` correlation rule. -/
def loginAfterFailuresRule : CorrelationRule :=
  { meta := { id := "login-after-failures",
              name := "Successful Login After Failures",
              description := "Detects successful login following 3+ failed attempts (potential compromise)",
              severity := "critical" },
    sequence := [ { count := some 3, window_seconds := some 300, matchCond := some failCond },
                  { count := none, window_seconds := none, matchCond := some succCond } ],
    group_by := some "parsed_data.source_ip" }

/-- An auth event with no `parsed_data.source_ip` field. -/
def c10Ev (result : String) (i : Int) : JSValue :=
  .obj (.ofList
    [("id", .num i), ("timestamp", .num 0), ("hostname", .str "h1"),
     ("parsed_data", .obj (.ofList
       [("auth_type", .str "ssh"), ("auth_result", .str result)]))])

/-- Concrete instance of `c10_missing_group_shares_undefined_bucket` on
the two default stateful rules. -/
theorem c10_missing_group_witness :
    runThreshold (fun _ => none) bruteForceSshRule []
      [(c10Ev "failure" 1, 0), (c10Ev "failure" 2, 0)] =
      ([none, none],
       [("brute-force-ssh:undefined",
         ⟨2, 0, [⟨.num 1, .num 0⟩, ⟨.num 2, .num 0⟩]⟩)]) ∧
    runCorrelation (fun _ => none) loginAfterFailuresRule []
      [(c10Ev "failure" 1, 0), (c10Ev "failure" 2, 0)] =
      ([none, none],
       [("login-after-failures:undefined",
         ⟨2, 0, [⟨.num 1, .num 0⟩, ⟨.num 2, .num 0⟩]⟩)]) :=
  ⟨c10_missing_group_shares_undefined_bucket.1 (fun _ => none) bruteForceSshRule
      "parsed_data.source_ip" (c10Ev "failure" 1) (c10Ev "failure" 2) 0 0
      rfl (by decide) rfl rfl rfl rfl rfl rfl (by decide) (by decide)
      (by decide) (by decide),
   c10_missing_group_shares_undefined_bucket.2 (fun _ => none) loginAfterFailuresRule
      { count := some 3, window_seconds := some 300, matchCond := some failCond }
      { count := none, window_seconds := none, matchCond := some succCond }
      [] failCond "parsed_data.source_ip" (c10Ev "failure" 1) (c10Ev "failure" 2) 0 0
      rfl rfl (by decide) rfl rfl rfl
      (by intro c1 hc1; cases hc1; exact ⟨rfl, rfl⟩)
      rfl rfl⟩

/-! ## Correlation-rule claims -/

/-- One `processCorrelationRule` call in which the stage-1 branch fires:
enough fresh stage-0 matches are accumulated, so the handler alerts with
the fresh-failure count and deletes the group state. -/
theorem correlation_fire_aux (re : String → Option (String → Bool))
    (rule : CorrelationRule) (s0 s1 : SeqStage) (tail : List SeqStage)
    (c1 : Condition) (ev : JSValue) (now : Int) (m : StateMap) (st : ThState)
    (N W : Int)
    (hseq : rule.sequence = s0 :: s1 :: tail)
    (hN : s0.count = some N) (hN1 : 1 ≤ N)
    (hW : s0.window_seconds = some W) (hW1 : 1 ≤ W)
    (hsc : s1.matchCond = some c1)
    (hm : matchesCondition re ev c1 = true)
    (hget : mapGet m (rule.meta.id ++ ":" ++ jsToString (groupValueOf ev rule.group_by)) =
      some st)
    (hcnt : st.count = (st.events.length : Int))
    (hfresh : N ≤ ((st.events.filter fun e =>
      now - dateGetTime e.timestamp < W * 1000).length : Int)) :
    processCorrelationRule re rule ev now m =
      (some (createAlert ev rule.meta
        ("Correlation match: Success after " ++
          toString (st.events.filter fun e =>
            now - dateGetTime e.timestamp < W * 1000).length ++ " failures")),
       mapDelete m (rule.meta.id ++ ":" ++ jsToString (groupValueOf ev rule.group_by))) := by
  simp only [processCorrelationRule, hseq, hsc, hm, hget, hN, hW, if_true, ite_true]
  have hNne : ¬(N = 0) := by omega
  have hWne : ¬(W = 0) := by omega
  simp only [jsOrInt, hNne, hWne, if_neg, ite_false]
  rw [if_pos]
  · rw [if_pos]
    exact hfresh
  · rw [hcnt]
    have hle := List.length_filter_le
      (fun e => decide (now - dateGetTime e.timestamp < W * 1000)) st.events
    simp only [List.filter] at hfresh hle ⊢
    omega

/-- One `processCorrelationRule` call on a stage-1-matching event with no
accumulated state: no alert is emitted. -/
theorem correlation_no_state_aux (re : String → Option (String → Bool))
    (rule : CorrelationRule) (s0 s1 : SeqStage) (tail : List SeqStage)
    (c1 : Condition) (ev : JSValue) (now : Int) (m : StateMap)
    (hseq : rule.sequence = s0 :: s1 :: tail)
    (hsc : s1.matchCond = some c1)
    (hm : matchesCondition re ev c1 = true)
    (hget : mapGet m (rule.meta.id ++ ":" ++ jsToString (groupValueOf ev rule.group_by)) =
      none) :
    (processCorrelationRule re rule ev now m).1 = none := by
  simp only [processCorrelationRule, hseq, hsc, hm, hget, if_true, ite_true]
  cases s0.matchCond with
  | none => rfl
  | some c0 => cases h : matchesCondition re ev c0 <;> simp [h]

/-- Claim C2 (amended): a stage-1-matching event, when the group's state
holds enough still-fresh stage-0 matches, emits exactly one alert whose
detail reports the number of still-fresh accumulated failures F (which is
at least N, but equals N only when no extra failures are fresh):
`Correlation match: Success after F failures`; the group's state is
deleted.  A stage-1-matching event with no accumulated state for its group
emits no alert. -/
theorem c2_correlation_fire_and_clear :
    (∀ (re : String → Option (String → Bool)) (rule : CorrelationRule)
       (s0 s1 : SeqStage) (tail : List SeqStage) (c1 : Condition)
       (ev : JSValue) (now : Int) (m : StateMap) (st : ThState) (N W : Int),
      rule.sequence = s0 :: s1 :: tail →
      s0.count = some N → 1 ≤ N →
      s0.window_seconds = some W → 1 ≤ W →
      s1.matchCond = some c1 →
      matchesCondition re ev c1 = true →
      mapGet m (rule.meta.id ++ ":" ++ jsToString (groupValueOf ev rule.group_by)) =
        some st →
      st.count = (st.events.length : Int) →
      N ≤ ((st.events.filter fun e =>
        now - dateGetTime e.timestamp < W * 1000).length : Int) →
      processCorrelationRule re rule ev now m =
        (some (createAlert ev rule.meta
          ("Correlation match: Success after " ++
            toString (st.events.filter fun e =>
              now - dateGetTime e.timestamp < W * 1000).length ++ " failures")),
         mapDelete m (rule.meta.id ++ ":" ++ jsToString (groupValueOf ev rule.group_by)))) ∧
    (∀ (re : String → Option (String → Bool)) (rule : CorrelationRule)
       (s0 s1 : SeqStage) (tail : List SeqStage) (c1 : Condition)
       (ev : JSValue) (now : Int) (m : StateMap),
      rule.sequence = s0 :: s1 :: tail →
      s1.matchCond = some c1 →
      matchesCondition re ev c1 = true →
      mapGet m (rule.meta.id ++ ":" ++ jsToString (groupValueOf ev rule.group_by)) =
        none →
      (processCorrelationRule re rule ev now m).1 = none) :=
  ⟨fun re rule s0 s1 tail c1 ev now m st N W hseq hN hN1 hW hW1 hsc hm hget hcnt hfresh =>
    correlation_fire_aux re rule s0 s1 tail c1 ev now m st N W hseq hN hN1 hW hW1
      hsc hm hget hcnt hfresh,
   fun re rule s0 s1 tail c1 ev now m hseq hsc hm hget =>
    correlation_no_state_aux re rule s0 s1 tail c1 ev now m hseq hsc hm hget⟩

/-- An auth event with an explicit `parsed_data.source_ip`. -/
def corrEv (result ip : String) (i : Int) : JSValue :=
  .obj (.ofList
    [("id", .num i), ("timestamp", .num 0),
     ("parsed_data", .obj (.ofList
       [("auth_result", .str result), ("source_ip", .str ip)]))])

/-- Concrete instance of `c2_correlation_fire_and_clear`: exactly 3 fresh
failures for `1.2.3.4`, then a success → one alert (`after 3 failures`)
and the bucket is deleted; a success with no state → no alert. -/
theorem c2_correlation_fire_and_clear_witness :
    processCorrelationRule (fun _ => none) loginAfterFailuresRule
      (corrEv "success" "1.2.3.4" 9) 0
      [("login-after-failures:1.2.3.4",
        ⟨3, 0, [⟨.num 1, .num 0⟩, ⟨.num 2, .num 0⟩, ⟨.num 3, .num 0⟩]⟩)] =
      (some (createAlert (corrEv "success" "1.2.3.4" 9) loginAfterFailuresRule.meta
        "Correlation match: Success after 3 failures"), []) ∧
    (processCorrelationRule (fun _ => none) loginAfterFailuresRule
      (corrEv "success" "1.2.3.4" 9) 0 []).1 = none := by
  constructor
  · have h := c2_correlation_fire_and_clear.1 (fun _ => none) loginAfterFailuresRule
      { count := some 3, window_seconds := some 300, matchCond := some failCond }
      { count := none, window_seconds := none, matchCond := some succCond }
      [] succCond (corrEv "success" "1.2.3.4" 9) 0
      [("login-after-failures:1.2.3.4",
        ⟨3, 0, [⟨.num 1, .num 0⟩, ⟨.num 2, .num 0⟩, ⟨.num 3, .num 0⟩]⟩)]
      ⟨3, 0, [⟨.num 1, .num 0⟩, ⟨.num 2, .num 0⟩, ⟨.num 3, .num 0⟩]⟩ 3 300
      rfl rfl (by decide) rfl (by decide) rfl rfl (by decide) (by decide) (by decide)
    exact h
  · exact c2_correlation_fire_and_clear.2 (fun _ => none) loginAfterFailuresRule
      { count := some 3, window_seconds := some 300, matchCond := some failCond }
      { count := none, window_seconds := none, matchCond := some succCond }
      [] succCond (corrEv "success" "1.2.3.4" 9) 0 [] rfl rfl rfl (by decide)

/-- Claim C2 counterexample: with stage-0 count N = 3, four fresh failures
followed by a success produce the detail `Success after 4 failures`, not
`Success after 3 failures` (= N) as the claim's wording fixes it. -/
theorem c2_detail_counts_fresh_failures_not_N :
    (runCorrelation (fun _ => none) loginAfterFailuresRule []
      [(corrEv "failure" "9.9.9.9" 1, 0), (corrEv "failure" "9.9.9.9" 2, 0),
       (corrEv "failure" "9.9.9.9" 3, 0), (corrEv "failure" "9.9.9.9" 4, 0),
       (corrEv "success" "9.9.9.9" 5, 0)]).1.map (Option.map Alert.description) =
      [none, none, none, none,
       some ("Detects successful login following 3+ failed attempts (potential compromise)"
         ++ "\n\nDetails: Correlation match: Success after 4 failures")] ∧
    ("Detects successful login following 3+ failed attempts (potential compromise)"
         ++ "\n\nDetails: Correlation match: Success after 4 failures") ≠
    ("Detects successful login following 3+ failed attempts (potential compromise)"
         ++ "\n\nDetails: Correlation match: Success after 3 failures") :=
  ⟨rfl, by decide⟩

/-- Claim C4 (amended): in correlation processing the stage-0 check runs
after the stage-1 check only when the stage-1 check produced no alert: an
event matching both predicates is still appended to the group's
accumulator whenever no alert fires — whether the group has no state yet,
an accumulator below the stage-0 count, or enough accumulated but not
enough still-fresh failures — but when the stage-1 alert fires the
handler returns immediately and the event is not appended (the state is
simply deleted). -/
theorem c4_stage0_after_stage1_unless_alert :
    (∀ (re : String → Option (String → Bool)) (rule : CorrelationRule)
       (s0 s1 : SeqStage) (tail : List SeqStage) (c0 c1 : Condition)
       (ev : JSValue) (now : Int) (m : StateMap),
      rule.sequence = s0 :: s1 :: tail →
      s0.matchCond = some c0 → s1.matchCond = some c1 →
      matchesCondition re ev c0 = true → matchesCondition re ev c1 = true →
      mapGet m (rule.meta.id ++ ":" ++ jsToString (groupValueOf ev rule.group_by)) =
        none →
      processCorrelationRule re rule ev now m =
        (none, mapSet m (rule.meta.id ++ ":" ++ jsToString (groupValueOf ev rule.group_by))
          ⟨1, now, [⟨jsIndex ev "id", jsIndex ev "timestamp"⟩]⟩)) ∧
    (∀ (re : String → Option (String → Bool)) (rule : CorrelationRule)
       (s0 s1 : SeqStage) (tail : List SeqStage) (c0 c1 : Condition)
       (ev : JSValue) (now : Int) (m : StateMap) (st : ThState) (N W : Int),
      rule.sequence = s0 :: s1 :: tail →
      s0.count = some N → 1 ≤ N →
      s0.window_seconds = some W → 1 ≤ W →
      s0.matchCond = some c0 → s1.matchCond = some c1 →
      matchesCondition re ev c0 = true → matchesCondition re ev c1 = true →
      mapGet m (rule.meta.id ++ ":" ++ jsToString (groupValueOf ev rule.group_by)) =
        some st →
      (st.count < N ∨
        ((st.events.filter fun e =>
          now - dateGetTime e.timestamp < W * 1000).length : Int) < N) →
      processCorrelationRule re rule ev now m =
        (none, mapSet m (rule.meta.id ++ ":" ++ jsToString (groupValueOf ev rule.group_by))
          ⟨st.count + 1, st.window_start,
            st.events ++ [⟨jsIndex ev "id", jsIndex ev "timestamp"⟩]⟩)) ∧
    (∀ (re : String → Option (String → Bool)) (rule : CorrelationRule)
       (s0 s1 : SeqStage) (tail : List SeqStage) (c0 c1 : Condition)
       (ev : JSValue) (now : Int) (m : StateMap) (st : ThState) (N W : Int),
      rule.sequence = s0 :: s1 :: tail →
      s0.count = some N → 1 ≤ N →
      s0.window_seconds = some W → 1 ≤ W →
      s0.matchCond = some c0 → s1.matchCond = some c1 →
      matchesCondition re ev c0 = true → matchesCondition re ev c1 = true →
      mapGet m (rule.meta.id ++ ":" ++ jsToString (groupValueOf ev rule.group_by)) =
        some st →
      st.count = (st.events.length : Int) →
      N ≤ ((st.events.filter fun e =>
        now - dateGetTime e.timestamp < W * 1000).length : Int) →
      (processCorrelationRule re rule ev now m).2 =
        mapDelete m (rule.meta.id ++ ":" ++ jsToString (groupValueOf ev rule.group_by)) ∧
      (processCorrelationRule re rule ev now m).1.isSome = true) := by
  refine ⟨?_, ?_, ?_⟩
  · intro re rule s0 s1 tail c0 c1 ev now m hseq hc0 hsc hm0 hm1 hget
    simp only [processCorrelationRule, hseq, hsc, hm1, hget, hc0, hm0, if_true, ite_true]
    simp [mapGet, hget]
  · intro re rule s0 s1 tail c0 c1 ev now m st N W hseq hN hN1 hW hW1 hc0 hsc hm0 hm1
      hget hnoal
    have hNne : ¬(N = 0) := by omega
    have hWne : ¬(W = 0) := by omega
    simp only [processCorrelationRule, hseq, hsc, hm1, hget, hc0, hm0, if_true, ite_true,
      hN, hW, jsOrInt, hNne, ite_false, if_neg, hWne]
    rcases hnoal with h | h
    · rw [if_neg (by omega : ¬(st.count ≥ N))]
      simp [hget]
    · by_cases hc : st.count ≥ N
      · rw [if_pos hc, if_neg (by omega :
          ¬(((st.events.filter fun e =>
            now - dateGetTime e.timestamp < W * 1000).length : Int) ≥ N))]
        simp [hget]
      · rw [if_neg hc]
        simp [hget]
  · intro re rule s0 s1 tail c0 c1 ev now m st N W hseq hN hN1 hW hW1 hc0 hsc hm0 hm1
      hget hcnt hfresh
    have h := correlation_fire_aux re rule s0 s1 tail c1 ev now m st N W
      hseq hN hN1 hW hW1 hsc hm1 hget hcnt hfresh
    rw [h]
    exact ⟨rfl, rfl⟩

/-- Source: `parsed_data.final equals "yes"` — a stage-1 predicate that an event
can satisfy at the same time as `failCond`. -/
def finalCond : Condition :=
  .mk .none .none (some "parsed_data.final") (some (.str "yes"))
    none none none .none .none

/-- A correlation rule whose two stage predicates are not mutually
exclusive. -/
def c4Rule : CorrelationRule :=
  { meta := { id := "c4-rule",
              name := "Overlapping stages",
              description := "d",
              severity := "warning" },
    sequence := [ { count := some 3, window_seconds := some 300, matchCond := some failCond },
                  { count := none, window_seconds := none, matchCond := some finalCond } ],
    group_by := some "parsed_data.source_ip" }

/-- An event matching both `failCond` and `finalCond`. -/
def c4BothEv : JSValue :=
  .obj (.ofList
    [("id", .num 4), ("timestamp", .num 0),
     ("parsed_data", .obj (.ofList
       [("auth_result", .str "failure"), ("final", .str "yes"),
        ("source_ip", .str "9.9.9.9")]))])

/-- Claim C4 counterexample: after three accumulated failures, an event
matching both patterns fires the stage-1 alert — and is NOT appended to
the accumulator: the handler returns before the stage-0 check, so the
state map is left empty (the bucket was deleted and never recreated). -/
theorem c4_alert_skips_stage0_append :
    (runCorrelation (fun _ => none) c4Rule []
      [(corrEv "failure" "9.9.9.9" 1, 0), (corrEv "failure" "9.9.9.9" 2, 0),
       (corrEv "failure" "9.9.9.9" 3, 0), (c4BothEv, 0)]).1.map Option.isSome =
      [false, false, false, true] ∧
    (runCorrelation (fun _ => none) c4Rule []
      [(corrEv "failure" "9.9.9.9" 1, 0), (corrEv "failure" "9.9.9.9" 2, 0),
       (corrEv "failure" "9.9.9.9" 3, 0), (c4BothEv, 0)]).2 = [] :=
  ⟨rfl, rfl⟩

/-- Concrete instances of `c4_stage0_after_stage1_unless_alert`: the
both-matching event is appended when there is no prior state, appended to
an existing below-threshold accumulator (two of three failures), and not
appended (state deleted, alert emitted) when the alert fires. -/
theorem c4_stage0_after_stage1_witness :
    processCorrelationRule (fun _ => none) c4Rule c4BothEv 0 [] =
      (none, mapSet [] "c4-rule:9.9.9.9" ⟨1, 0, [⟨.num 4, .num 0⟩]⟩) ∧
    processCorrelationRule (fun _ => none) c4Rule c4BothEv 0
      [("c4-rule:9.9.9.9", ⟨2, 0, [⟨.num 1, .num 0⟩, ⟨.num 2, .num 0⟩]⟩)] =
      (none, mapSet [("c4-rule:9.9.9.9", ⟨2, 0, [⟨.num 1, .num 0⟩, ⟨.num 2, .num 0⟩]⟩)]
        "c4-rule:9.9.9.9" ⟨3, 0, [⟨.num 1, .num 0⟩, ⟨.num 2, .num 0⟩, ⟨.num 4, .num 0⟩]⟩) ∧
    ((processCorrelationRule (fun _ => none) c4Rule c4BothEv 0
        [("c4-rule:9.9.9.9",
          ⟨3, 0, [⟨.num 1, .num 0⟩, ⟨.num 2, .num 0⟩, ⟨.num 3, .num 0⟩]⟩)]).2 =
      mapDelete [("c4-rule:9.9.9.9",
          ⟨3, 0, [⟨.num 1, .num 0⟩, ⟨.num 2, .num 0⟩, ⟨.num 3, .num 0⟩]⟩)]
        "c4-rule:9.9.9.9" ∧
     (processCorrelationRule (fun _ => none) c4Rule c4BothEv 0
        [("c4-rule:9.9.9.9",
          ⟨3, 0, [⟨.num 1, .num 0⟩, ⟨.num 2, .num 0⟩, ⟨.num 3, .num 0⟩]⟩)]).1.isSome =
      true) :=
  ⟨c4_stage0_after_stage1_unless_alert.1 (fun _ => none) c4Rule
      { count := some 3, window_seconds := some 300, matchCond := some failCond }
      { count := none, window_seconds := none, matchCond := some finalCond }
      [] failCond finalCond c4BothEv 0 [] rfl rfl rfl rfl rfl rfl,
   c4_stage0_after_stage1_unless_alert.2.1 (fun _ => none) c4Rule
      { count := some 3, window_seconds := some 300, matchCond := some failCond }
      { count := none, window_seconds := none, matchCond := some finalCond }
      [] failCond finalCond c4BothEv 0
      [("c4-rule:9.9.9.9", ⟨2, 0, [⟨.num 1, .num 0⟩, ⟨.num 2, .num 0⟩]⟩)]
      ⟨2, 0, [⟨.num 1, .num 0⟩, ⟨.num 2, .num 0⟩]⟩ 3 300
      rfl rfl (by decide) rfl (by decide) rfl rfl rfl rfl (by decide)
      (Or.inl (by decide)),
   c4_stage0_after_stage1_unless_alert.2.2 (fun _ => none) c4Rule
      { count := some 3, window_seconds := some 300, matchCond := some failCond }
      { count := none, window_seconds := none, matchCond := some finalCond }
      [] failCond finalCond c4BothEv 0
      [("c4-rule:9.9.9.9",
        ⟨3, 0, [⟨.num 1, .num 0⟩, ⟨.num 2, .num 0⟩, ⟨.num 3, .num 0⟩]⟩)]
      ⟨3, 0, [⟨.num 1, .num 0⟩, ⟨.num 2, .num 0⟩, ⟨.num 3, .num 0⟩]⟩ 3 300
      rfl rfl (by decide) rfl (by decide) rfl rfl rfl rfl (by decide) (by decide)
      (by decide)⟩

/-! ## Threshold scenario machinery for the fire-and-reset cycle -/

/-- A stream element for the threshold scenario: the event matches the
rule's predicate, resolves to group value `g`, and carries a numeric
timestamp equal to its processing instant, which lies in `[tlo, thi]`. -/
def GoodThEvent (re : String → Option (String → Bool)) (rule : ThresholdRule)
    (gb : String) (g : JSValue) (tlo thi : Int) (p : JSValue × Int) : Prop :=
  matchesCondition re p.1 rule.cond = true ∧
  getFieldValue p.1 (some gb) = g ∧
  jsIndex p.1 "timestamp" = .num p.2 ∧
  tlo ≤ p.2 ∧ p.2 ≤ thi

instance (re : String → Option (String → Bool)) (rule : ThresholdRule)
    (gb : String) (g : JSValue) (tlo thi : Int) (p : JSValue × Int) :
    Decidable (GoodThEvent re rule gb g tlo thi p) := by
  unfold GoodThEvent; infer_instance

theorem runThreshold_append (re : String → Option (String → Bool))
    (rule : ThresholdRule) (m : StateMap) (l1 l2 : List (JSValue × Int)) :
    runThreshold re rule m (l1 ++ l2) =
      ((runThreshold re rule m l1).1 ++
        (runThreshold re rule (runThreshold re rule m l1).2 l2).1,
       (runThreshold re rule (runThreshold re rule m l1).2 l2).2) := by
  induction l1 generalizing m with
  | nil => simp [runThreshold]
  | cons hd tl ih =>
      obtain ⟨e, t⟩ := hd
      simp [runThreshold, ih]

/-- Accumulation phase: feeding `es` in-window matching events onto an
existing state whose final count stays below the threshold produces no
alert and appends every event. -/
theorem runThreshold_accum_phase (re : String → Option (String → Bool))
    (rule : ThresholdRule) (gb : String) (g : JSValue) (tlo thi : Int)
    (hgb : rule.group_by = some gb) (hgbne : gb ≠ "")
    (hW : 1 ≤ jsOrInt rule.window_seconds 60)
    (hwin : thi - tlo < jsOrInt rule.window_seconds 60 * 1000)
    (es : List (JSValue × Int))
    (hes : ∀ p ∈ es, GoodThEvent re rule gb g tlo thi p)
    (m : StateMap) (st : ThState)
    (hget : mapGet m (rule.meta.id ++ ":" ++ jsToString g) = some st)
    (hws1 : tlo ≤ st.window_start) (hws2 : st.window_start ≤ thi)
    (hstored : ∀ x ∈ st.events, ∃ t : Int, x.timestamp = .num t ∧ tlo ≤ t ∧ t ≤ thi)
    (hc : st.count = (st.events.length : Int))
    (hcnt : ((st.events.length + es.length : Nat) : Int) < jsOrInt rule.threshold 5) :
    runThreshold re rule m es =
      (List.replicate es.length none,
       mapSet m (rule.meta.id ++ ":" ++ jsToString g)
         ⟨((st.events.length + es.length : Nat) : Int), st.window_start,
           st.events ++ es.map fun p => ⟨jsIndex p.1 "id", .num p.2⟩⟩) := by
  induction es generalizing m st with
  | nil =>
      simp only [runThreshold, List.length_nil, Nat.add_zero, List.map_nil,
        List.append_nil, List.replicate]
      have hst : (⟨((st.events.length : Nat) : Int), st.window_start, st.events⟩ : ThState) = st := by
        cases st with
        | mk c w evs => simp_all
      rw [hst, mapSet_self m _ st hget]
  | cons hd tl ih =>
      obtain ⟨e, t⟩ := hd
      obtain ⟨hm, hg, hts, htlo, hthi⟩ := hes (e, t) (by simp)
      have htl : ∀ p ∈ tl, GoodThEvent re rule gb g tlo thi p := by
        intro p hp; exact hes p (by simp [hp])
      have hstep := processThresholdRule_accum re rule gb g e t m st hgb hgbne hm hg hts hW
        hget
        (by omega)
        (by
          intro x hx
          obtain ⟨tx, hxts, hxlo, hxhi⟩ := hstored x hx
          rw [hxts]
          simp only [dateGetTime]
          omega)
        (by
          simp only [List.length_cons] at hcnt
          push_cast at hcnt ⊢
          omega)
      have ihappl := ih htl
        (mapSet m (rule.meta.id ++ ":" ++ jsToString g)
          ⟨(st.events.length : Int) + 1, st.window_start,
            st.events ++ [⟨jsIndex e "id", .num t⟩]⟩)
        ⟨(st.events.length : Int) + 1, st.window_start,
          st.events ++ [⟨jsIndex e "id", .num t⟩]⟩
        (mapGet_set_self _ _ _) hws1 hws2
        (by
          intro x hx
          rcases List.mem_append.1 hx with h | h
          · exact hstored x h
          · simp only [List.mem_singleton] at h
            subst h
            exact ⟨t, rfl, htlo, hthi⟩)
        (by
          simp only [List.length_append, List.length_singleton]
          push_cast
          ring)
        (by
          simp only [List.length_append, List.length_singleton, List.length_cons,
            List.length_nil] at hcnt ⊢
          push_cast at hcnt ⊢
          omega)
      simp only [runThreshold, hstep, ihappl, mapSet_set, Prod.mk.injEq]
      constructor
      · simp [List.replicate_succ]
      · congr 1
        simp only [ThState.mk.injEq, List.length_append, List.length_singleton,
          List.length_cons, List.length_nil, List.append_assoc, List.singleton_append,
          List.map_cons]
        refine ⟨by push_cast; ring, trivial, trivial⟩

/-- Claim C1 (amended, threshold T ≥ 2): feeding a threshold rule
(2T + 1) matching events of one group, all within the window — T events,
then one more, then T further — alerts exactly on the T-th event (with
detail `Threshold exceeded: T events in Ws (group: G)`), resets the group
state to empty so the (T+1)-th event does not alert, and alerts exactly
once more within the T further events (on the 2T-th, the state again
holding a fresh count), the last event leaving a fresh count of 1. -/
theorem c1_threshold_fire_reset_cycle
    (re : String → Option (String → Bool)) (rule : ThresholdRule)
    (gb : String) (g : JSValue) (T : Nat) (tlo thi : Int)
    (hgb : rule.group_by = some gb) (hgbne : gb ≠ "")
    (hT : rule.threshold = some (T : Int)) (hT2 : 2 ≤ T)
    (hW : 1 ≤ jsOrInt rule.window_seconds 60)
    (hwin : thi - tlo < jsOrInt rule.window_seconds 60 * 1000)
    (l1 l2 : List (JSValue × Int)) (p q r : JSValue × Int)
    (hl1 : l1.length = T - 1) (hl2 : l2.length = T - 1)
    (hall : ∀ x ∈ l1 ++ p :: (l2 ++ [q, r]), GoodThEvent re rule gb g tlo thi x) :
    runThreshold re rule [] (l1 ++ p :: (l2 ++ [q, r])) =
      (List.replicate (T - 1) none ++
         some (createAlert p.1 rule.meta
           (thresholdDetail (T : Int) rule.window_seconds g)) ::
         (List.replicate (T - 1) none ++
          [some (createAlert q.1 rule.meta
            (thresholdDetail (T : Int) rule.window_seconds g)),
           none]),
       [(rule.meta.id ++ ":" ++ jsToString g,
         ⟨1, q.2, [⟨jsIndex r.1 "id", .num r.2⟩]⟩)]) := by
  have hthrT : jsOrInt rule.threshold 5 = (T : Int) := by
    rw [hT]
    simp only [jsOrInt]
    rw [if_neg]
    omega
  cases l1 with
  | nil =>
      exfalso
      simp only [List.length_nil] at hl1
      omega
  | cons a l1' =>
    obtain ⟨ae, ta⟩ := a
    obtain ⟨pe, tp⟩ := p
    obtain ⟨qe, tq⟩ := q
    obtain ⟨rev, tr⟩ := r
    have hl1' : l1'.length = T - 2 := by
      simp only [List.length_cons] at hl1
      omega
    obtain ⟨ham, hag, hats, halo, hahi⟩ := hall (ae, ta) (by simp)
    obtain ⟨hpm, hpg, hpts, hplo, hphi⟩ := hall (pe, tp) (by simp)
    obtain ⟨hqm, hqg, hqts, hqlo, hqhi⟩ := hall (qe, tq) (by simp)
    obtain ⟨hrm, hrg, hrts, hrlo, hrhi⟩ := hall (rev, tr) (by simp)
    have hGl1' : ∀ x ∈ l1', GoodThEvent re rule gb g tlo thi x := by
      intro x hx; exact hall x (by simp [hx])
    have hGl2 : ∀ x ∈ l2, GoodThEvent re rule gb g tlo thi x := by
      intro x hx; exact hall x (by simp [hx])
    -- step 1: the first event creates a fresh singleton state
    have h_a := processThresholdRule_fresh re rule gb g ae ta [] hgb hgbne ham hag hats hW
      (by simp [mapGet]) (by rw [hthrT]; omega)
    -- phase 1: the next T-2 events accumulate to count T-1
    have hphase1 := runThreshold_accum_phase re rule gb g tlo thi hgb hgbne hW hwin l1' hGl1'
      (mapSet [] (rule.meta.id ++ ":" ++ jsToString g)
        ⟨1, ta, [⟨jsIndex ae "id", .num ta⟩]⟩)
      ⟨1, ta, [⟨jsIndex ae "id", .num ta⟩]⟩
      (mapGet_set_self _ _ _) halo hahi
      (by
        intro x hx
        simp only [List.mem_singleton] at hx
        subst hx
        exact ⟨ta, rfl, halo, hahi⟩)
      (by simp)
      (by rw [hthrT]; simp only [List.length_singleton]; omega)
    rw [mapSet_set] at hphase1
    -- the state entering the T-th event
    have hlen1 : (([(⟨jsIndex ae "id", .num ta⟩ : StoredEvent)] ++
        l1'.map fun x => (⟨jsIndex x.1 "id", .num x.2⟩ : StoredEvent)).length : Nat) = T - 1 := by
      simp [hl1']
      omega
    have hstored1 : ∀ x ∈ [(⟨jsIndex ae "id", .num ta⟩ : StoredEvent)] ++
        (l1'.map fun x => (⟨jsIndex x.1 "id", .num x.2⟩ : StoredEvent)),
        ∃ t : Int, x.timestamp = .num t ∧ tlo ≤ t ∧ t ≤ thi := by
      intro x hx
      rcases List.mem_append.1 hx with h | h
      · simp only [List.mem_singleton] at h
        subst h
        exact ⟨ta, rfl, halo, hahi⟩
      · obtain ⟨y, hy, hxy⟩ := List.mem_map.1 h
        subst hxy
        exact ⟨y.2, rfl, (hGl1' y hy).2.2.2.1, (hGl1' y hy).2.2.2.2⟩
    -- the T-th event fires and resets
    have h_p := processThresholdRule_fire re rule gb g pe tp
      (mapSet [] (rule.meta.id ++ ":" ++ jsToString g)
        ⟨((1 + l1'.length : Nat) : Int), ta,
          [(⟨jsIndex ae "id", .num ta⟩ : StoredEvent)] ++
            l1'.map fun x => (⟨jsIndex x.1 "id", .num x.2⟩ : StoredEvent)⟩)
      ⟨((1 + l1'.length : Nat) : Int), ta,
        [(⟨jsIndex ae "id", .num ta⟩ : StoredEvent)] ++
          l1'.map fun x => (⟨jsIndex x.1 "id", .num x.2⟩ : StoredEvent)⟩
      hgb hgbne hpm hpg hpts hW (mapGet_set_self _ _ _)
      (by simp only; omega)
      (by
        intro x hx
        obtain ⟨tx, hxts, hxlo, hxhi⟩ := hstored1 x hx
        rw [hxts]
        simp only [dateGetTime]
        omega)
      (by
        simp only [hlen1]
        rw [hthrT]
        omega)
    rw [mapSet_set] at h_p
    have hdetail1 : thresholdDetail
        ((([(⟨jsIndex ae "id", .num ta⟩ : StoredEvent)] ++
          (l1'.map fun x => (⟨jsIndex x.1 "id", .num x.2⟩ : StoredEvent))).length : Int) + 1)
        rule.window_seconds g = thresholdDetail (T : Int) rule.window_seconds g := by
      rw [hlen1]
      congr 1
      omega
    rw [hdetail1] at h_p
    -- phase 2: T-1 further events accumulate on the reset state
    have hphase2 := runThreshold_accum_phase re rule gb g tlo thi hgb hgbne hW hwin l2 hGl2
      (mapSet [] (rule.meta.id ++ ":" ++ jsToString g) ⟨0, tp, []⟩)
      ⟨0, tp, []⟩
      (mapGet_set_self _ _ _) hplo hphi
      (by intro x hx; simp at hx)
      (by simp)
      (by rw [hthrT]; simp only [List.length_nil, Nat.zero_add, hl2]; omega)
    rw [mapSet_set] at hphase2
    have hstored2 : ∀ x ∈ ([] : List StoredEvent) ++
        (l2.map fun x => (⟨jsIndex x.1 "id", .num x.2⟩ : StoredEvent)),
        ∃ t : Int, x.timestamp = .num t ∧ tlo ≤ t ∧ t ≤ thi := by
      intro x hx
      simp only [List.nil_append] at hx
      obtain ⟨y, hy, hxy⟩ := List.mem_map.1 hx
      subst hxy
      exact ⟨y.2, rfl, (hGl2 y hy).2.2.2.1, (hGl2 y hy).2.2.2.2⟩
    -- the 2T-th event fires and resets again
    have h_q := processThresholdRule_fire re rule gb g qe tq
      (mapSet [] (rule.meta.id ++ ":" ++ jsToString g)
        ⟨((0 + l2.length : Nat) : Int), tp,
          ([] : List StoredEvent) ++
            l2.map fun x => (⟨jsIndex x.1 "id", .num x.2⟩ : StoredEvent)⟩)
      ⟨((0 + l2.length : Nat) : Int), tp,
        ([] : List StoredEvent) ++
          l2.map fun x => (⟨jsIndex x.1 "id", .num x.2⟩ : StoredEvent)⟩
      hgb hgbne hqm hqg hqts hW (mapGet_set_self _ _ _)
      (by simp only; omega)
      (by
        intro x hx
        obtain ⟨tx, hxts, hxlo, hxhi⟩ := hstored2 x hx
        rw [hxts]
        simp only [dateGetTime]
        omega)
      (by
        simp only [List.nil_append, List.length_map, hl2]
        rw [hthrT]
        omega)
    rw [mapSet_set] at h_q
    have hdetail2 : thresholdDetail
        (((([] : List StoredEvent) ++
          (l2.map fun x => (⟨jsIndex x.1 "id", .num x.2⟩ : StoredEvent))).length : Int) + 1)
        rule.window_seconds g = thresholdDetail (T : Int) rule.window_seconds g := by
      simp only [List.nil_append, List.length_map, hl2]
      congr 1
      omega
    rw [hdetail2] at h_q
    -- the last event lands on the fresh reset state
    have h_r := processThresholdRule_accum re rule gb g rev tr
      (mapSet [] (rule.meta.id ++ ":" ++ jsToString g) ⟨0, tq, []⟩)
      ⟨0, tq, []⟩
      hgb hgbne hrm hrg hrts hW (mapGet_set_self _ _ _)
      (by simp only; omega)
      (by intro x hx; simp at hx)
      (by rw [hthrT]; simp only [List.length_nil]; omega)
    rw [mapSet_set] at h_r
    -- normalize the lengths and appends in all step equations
    simp only [List.length_singleton, List.length_nil, List.length_cons,
      List.singleton_append, List.nil_append, List.append_nil, Nat.zero_add,
      Nat.cast_zero, zero_add, Nat.cast_ofNat] at h_a hphase1 h_p hphase2 h_q h_r
    -- assemble the run
    rw [List.cons_append]
    simp only [runThreshold, runThreshold_append, h_a, hphase1, h_p, hphase2, h_q, h_r]
    simp only [Prod.mk.injEq]
    constructor
    · rw [hl1', hl2]
      rw [show (T - 1 : Nat) = (T - 2) + 1 from by omega, List.replicate_succ]
      simp only [List.cons_append]
    · rfl

/-- A threshold-1 variant: the claim's reset clause fails for T = 1. -/
def c1T1Rule : ThresholdRule :=
  { meta := { id := "t1",
              name := "Threshold one",
              description := "d",
              severity := "warning" },
    cond := failCond,
    threshold := some 1,
    window_seconds := some 60,
    group_by := some "parsed_data.source_ip" }

/-- Claim C1 counterexample: with threshold T = 1 the T-th matching event
alerts and resets, but the (T+1)-th matching event immediately after
reaches the threshold again and ALSO alerts — the claim's "(T+1)-th
matching event immediately after produces no alert" fails at T = 1. -/
theorem c1_threshold_one_realerts :
    (runThreshold (fun _ => none) c1T1Rule []
      [(corrEv "failure" "9.9.9.9" 1, 0), (corrEv "failure" "9.9.9.9" 2, 0)]).1.map
        Option.isSome = [true, true] := rfl

/-- A threshold-2 rule for the concrete fire-reset-cycle run. -/
def c1WitRule : ThresholdRule :=
  { meta := { id := "c1-wit",
              name := "Two failures",
              description := "d",
              severity := "warning" },
    cond := failCond,
    threshold := some 2,
    window_seconds := some 60,
    group_by := some "parsed_data.source_ip" }

/-- Concrete instance of `c1_threshold_fire_reset_cycle` with T = 2:
alerts exactly on events 2 and 4 of five identical matching events, the
final state holding a fresh count of 1. -/
theorem c1_threshold_fire_reset_cycle_witness :
    runThreshold (fun _ => none) c1WitRule []
      [(corrEv "failure" "9.9.9.9" 1, 0), (corrEv "failure" "9.9.9.9" 2, 0),
       (corrEv "failure" "9.9.9.9" 3, 0), (corrEv "failure" "9.9.9.9" 4, 0),
       (corrEv "failure" "9.9.9.9" 5, 0)] =
      ([none,
        some (createAlert (corrEv "failure" "9.9.9.9" 2) c1WitRule.meta
          (thresholdDetail 2 (some 60) (.str "9.9.9.9"))),
        none,
        some (createAlert (corrEv "failure" "9.9.9.9" 4) c1WitRule.meta
          (thresholdDetail 2 (some 60) (.str "9.9.9.9"))),
        none],
       [("c1-wit:9.9.9.9", ⟨1, 0, [⟨.num 5, .num 0⟩]⟩)]) :=
  c1_threshold_fire_reset_cycle (fun _ => none) c1WitRule "parsed_data.source_ip"
    (.str "9.9.9.9") 2 0 0 rfl (by decide) rfl (by decide) (by decide) (by decide)
    [(corrEv "failure" "9.9.9.9" 1, 0)] [(corrEv "failure" "9.9.9.9" 3, 0)]
    (corrEv "failure" "9.9.9.9" 2, 0) (corrEv "failure" "9.9.9.9" 4, 0)
    (corrEv "failure" "9.9.9.9" 5, 0) rfl rfl (by decide)
